import Mathlib

/-!
Verification of the EPG ingestion / synthesis pipeline of TVH-IPTV-Config
(`backend/epgs.py`), as a shallow embedding in Lean.

Python strings are modelled by `String`; operations that Python performs on
them (`strip`, `lower`, `split(' ', 1)`, truthiness) are re-implemented
structurally over `String.data` so that concrete runs reduce in the kernel.
XML documents (both the parsed XMLTV input consumed by
`xml.etree.ElementTree` and the output tree produced by `build_custom_epg`)
are modelled by the `Xml` inductive below: an element with a tag, an ordered
attribute list (ElementTree preserves attribute insertion order), optional
text, and an ordered child list.

The relational store (`models.py`) is modelled by `DBState`: the
`epg_channels` and `epg_channel_programmes` tables as lists of rows plus an
autoincrement counter for `EpgChannels.id`.  JSON-serialized list/dict
columns (`categories`, `keywords`, `credits`) are modelled by the
deserialized values themselves (`json.dumps`/`json.loads` round-trip), with
`none` standing for SQL NULL exactly when the Python code stores NULL
(empty list / empty dict).
-/

namespace TIC

/-- One XML element: tag, ordered attribute list, optional text, children. -/
inductive Xml where
  | elem (tag : String) (attrs : List (String × String)) (text : Option String) (children : List Xml)

/-- The element's tag. -/
def Xml.tag : Xml → String
  | .elem t _ _ _ => t

/-- The element's attribute list. -/
def Xml.attrs : Xml → List (String × String)
  | .elem _ a _ _ => a

/-- The element's text (`Element.text`; `none` models Python `None`). -/
def Xml.textOf : Xml → Option String
  | .elem _ _ t _ => t

/-- The element's direct children. -/
def Xml.children : Xml → List Xml
  | .elem _ _ _ c => c

mutual
/-- All proper descendants of an element in document order
(`ElementTree`'s `.//tag` iterates elements in document order). -/
def Xml.descendants : Xml → List Xml
  | .elem _ _ _ children => Xml.descList children
/-- Descendant traversal of a forest: each root followed by its descendants. -/
def Xml.descList : List Xml → List Xml
  | [] => []
  | x :: xs => x :: (Xml.descendants x ++ Xml.descList xs)
end

/-- `element.attrib.get(key, None)`. -/
def attrGet (x : Xml) (key : String) : Option String :=
  ((x.attrs).find? (fun kv => kv.1 == key)).map (·.2)

/-- `element.find(tag)`: first direct child with the given tag. -/
def xFind (x : Xml) (t : String) : Option Xml :=
  (x.children).find? (fun c => c.tag == t)

/-- `element.findall(tag)`: all direct children with the given tag. -/
def xFindAll (x : Xml) (t : String) : List Xml :=
  (x.children).filter (fun c => c.tag == t)

/-- `element.findtext(tag, default=None)`: `none` when no such child exists;
when the child exists, its text, with a missing text read as `""`
(ElementTree returns the empty string for a matching element without text). -/
def findtext (x : Xml) (t : String) : Option String :=
  match xFind x t with
  | none => none
  | some el => some (el.textOf.getD "")

/-- `tree.iterfind('.//channel')` on the document root: all proper
descendants tagged `channel`, in document order (`.//` excludes the root
element itself). -/
def xmlChannels (doc : Xml) : List Xml :=
  doc.descendants.filter (fun c => c.tag == "channel")

/-- `tree.iterfind('.//programme')` on the document root: all proper
descendants tagged `programme`, in document order (`.//` excludes the root
element itself). -/
def xmlProgrammes (doc : Xml) : List Xml :=
  doc.descendants.filter (fun c => c.tag == "programme")

/-- Python truthiness of an optional string field (`None` and `''` are falsy). -/
def truthy : Option String → Bool
  | none => false
  | some s => !(s == "")

/-- Python truthiness of an optional boolean column (`None` and `False` falsy). -/
def truthyB : Option Bool → Bool
  | none => false
  | some b => b

/-- Python `str.strip()`: drop leading and trailing whitespace. -/
def pyStrip (s : String) : String :=
  String.mk (((s.data.dropWhile Char.isWhitespace).reverse.dropWhile Char.isWhitespace).reverse)

/-- Python `str.lower()` (ASCII case folding suffices for the compared literals). -/
def pyLower (s : String) : String :=
  String.mk (s.data.map Char.toLower)

/-- Character-list lexicographic comparison backing `pyStrLe`. -/
def charListLe : List Char → List Char → Bool
  | [], _ => true
  | _ :: _, [] => false
  | a :: as, b :: bs => if a = b then charListLe as bs else decide (a < b)

/-- String comparison used to model SQL `ORDER BY` over text columns. -/
def pyStrLe (a b : String) : Bool := charListLe a.data b.data

/-- Python `s.split(' ', 1)`: the part before the first space, and the rest
when a space occurs (`build_custom_epg` re-splits the stored `length`). -/
def splitFirstSpace (s : String) : String × Option String :=
  match s.data.span (fun c => !(c = ' ')) with
  | (before, []) => (String.mk before, none)
  | (before, _ :: rest) => (String.mk before, some (String.mk rest))

/-- One row of the `epg_channels` table (`EpgChannels` in `models.py`).
`channel_id` and `name` are nullable columns. -/
structure EpgChannelRow where
  id : Nat
  epg_id : Nat
  channel_id : Option String
  name : Option String
  icon_url : String
deriving Repr, DecidableEq

/-- One row of the `epg_channel_programmes` table
(`EpgChannelProgrammes` in `models.py`), fields in the order the
`store_epg_programmes` constructor call lists them. -/
structure ProgrammeRow where
  epg_channel_id : Nat
  channel_id : Option String
  title : Option String
  sub_title : Option String
  desc : Option String
  series_desc : Option String
  icon_url : Option String
  country : Option String
  start : Option String
  stop : Option String
  start_timestamp : Option String
  stop_timestamp : Option String
  categories : Option (List String)
  url : Option String
  date : Option String
  length : Option String
  keywords : Option (List String)
  credits : Option (List (String × List String))
  episode_num_system : Option String
  episode_num_value : Option String
  rating_system : Option String
  rating_value : Option String
  star_rating : Option String
  video_present : Option Bool
  video_colour : Option Bool
  video_aspect : Option String
  video_quality : Option String
  audio_present : Option Bool
  audio_stereo : Option String
  subtitles_type : Option String
  audio_described : Option Bool
  is_premiere : Bool
  is_new : Bool
  previously_shown : Option String
  review_type : Option String
  review_value : Option String
deriving Repr, DecidableEq

/-- The relational store: the two guide tables plus the autoincrement
counter for `EpgChannels.id`. -/
structure DBState where
  epgChannels : List EpgChannelRow
  programmes : List ProgrammeRow
  nextId : Nat
deriving Repr, DecidableEq

/-- Database well-formedness maintained by SQLAlchemy: channel primary keys
are below the autoincrement counter and pairwise distinct, and every
programme's foreign key references an existing channel row. -/
def WF (s : DBState) : Prop :=
  (∀ ec ∈ s.epgChannels, ec.id < s.nextId)
  ∧ s.epgChannels.Pairwise (fun a b => a.id ≠ b.id)
  ∧ (∀ p ∈ s.programmes, ∃ ec ∈ s.epgChannels, ec.id = p.epg_channel_id)

/-- `clear_epg_channel_data` (`epgs.py:122`): collect the ids of this EPG's
channel rows, delete the programmes referencing them, then delete those
channel rows.  One committed transaction. -/
def clear_epg_channel_data (epg_id : Nat) (s : DBState) : DBState :=
  let channel_ids := (s.epgChannels.filter (fun ec => ec.epg_id == epg_id)).map (·.id)
  { s with
    programmes := s.programmes.filter (fun p => !(channel_ids.contains p.epg_channel_id)),
    epgChannels := s.epgChannels.filter (fun ec => !(channel_ids.contains ec.id)) }

/-- The parse of one `<channel>` element inside `store_epg_channels`
(`epgs.py:180` .. `194`): upstream id attribute, `display-name` text, icon
`src` defaulting to `''`.  A `<channel>` without a `display-name` child
raises in the source; that run is covered by the `parse` failure point of
`import_epg_data` below, so here the name is simply absent. -/
def parseChannelRow (epg_id : Nat) (id : Nat) (channel : Xml) : EpgChannelRow :=
  { id := id
    epg_id := epg_id
    channel_id := attrGet channel "id"
    name := (xFind channel "display-name").bind Xml.textOf
    icon_url := match xFind channel "icon" with
      | some ic => (attrGet ic "src").getD ""
      | none => "" }

/-- The bulk insert's autoincrement id assignment: consecutive fresh ids in
list order, starting at the table's next id. -/
def assignIds (epg_id : Nat) : Nat → List Xml → List EpgChannelRow
  | _, [] => []
  | startId, c :: cs => parseChannelRow epg_id startId c :: assignIds epg_id (startId + 1) cs

/-- `store_epg_channels` (`epgs.py:162`): in one transaction, delete all of
this EPG's channel rows, bulk-insert one row per `.//channel` element of the
file, and return the list of upstream channel ids.  Inserted rows receive
consecutive fresh autoincrement ids. -/
def store_epg_channels (epg_id : Nat) (doc : Xml) (s : DBState) :
    DBState × List (Option String) :=
  let chans := xmlChannels doc
  let newRows := assignIds epg_id s.nextId chans
  ({ s with
      epgChannels := (s.epgChannels.filter (fun ec => !(ec.epg_id == epg_id))) ++ newRows,
      nextId := s.nextId + chans.length },
    chans.map (fun c => attrGet c "id"))

/-- The text of a list-valued child, kept only when truthy
(`if category.text: categories.append(category.text)`). -/
def truthyText (c : Xml) : Option String :=
  match c.textOf with
  | some s => if s == "" then none else some s
  | none => none

/-- The credit roles `store_epg_programmes` iterates, in order. -/
def creditTypes : List String :=
  ["actor", "director", "writer", "producer", "presenter", "commentator", "guest"]

/-- The `<credits>` parse (`epgs.py:267` .. `276`): for each role in the fixed
order, the truthy texts of its children; roles with no names are dropped. -/
def parseCredits (programme : Xml) : List (String × List String) :=
  match xFind programme "credits" with
  | none => []
  | some credits_elem =>
    creditTypes.filterMap (fun credit_type =>
      let credit_list := (xFindAll credits_elem credit_type).filterMap truthyText
      if credit_list.isEmpty then none else some (credit_type, credit_list))

/-- `'yes'` comparison of a sub-element's text (`epgs.py:313` etc.).  The
source raises on an element whose text is `None`; such a document is covered
by the `parse` failure point of `import_epg_data`. -/
def textIsYes (el : Xml) : Option Bool :=
  el.textOf.map (fun t => pyLower t == "yes")

/-- The parse of one `<programme>` element inside `store_epg_programmes`
(`epgs.py:236` .. `414`), producing the row inserted into
`epg_channel_programmes`. -/
def parseProgrammeRow (epg_channel_id : Nat) (channel_id : Option String)
    (programme : Xml) : ProgrammeRow :=
  let categories := (xFindAll programme "category").filterMap truthyText
  let keywords := (xFindAll programme "keyword").filterMap truthyText
  let credits_data := parseCredits programme
  let episode_num := xFind programme "episode-num"
  let rating := xFind programme "rating"
  let video := xFind programme "video"
  let audio := xFind programme "audio"
  { epg_channel_id := epg_channel_id
    channel_id := channel_id
    title := findtext programme "title"
    sub_title := findtext programme "sub-title"
    desc := findtext programme "desc"
    series_desc := findtext programme "series-desc"
    icon_url := (xFind programme "icon").bind (fun ic => attrGet ic "src")
    country := findtext programme "country"
    start := attrGet programme "start"
    stop := attrGet programme "stop"
    start_timestamp := attrGet programme "start_timestamp"
    stop_timestamp := attrGet programme "stop_timestamp"
    categories := if categories.isEmpty then none else some categories
    url := findtext programme "url"
    date := findtext programme "date"
    length := match xFind programme "length" with
      | some length_elem =>
        let length_units := (attrGet length_elem "units").getD "minutes"
        match length_elem.textOf with
        | some t => if t == "" then none else some (t ++ " " ++ length_units)
        | none => none
      | none => none
    keywords := if keywords.isEmpty then none else some keywords
    credits := if credits_data.isEmpty then none else some credits_data
    episode_num_system := episode_num.bind (fun e => attrGet e "system")
    episode_num_value := episode_num.bind Xml.textOf
    rating_system := rating.bind (fun r => attrGet r "system")
    rating_value := rating.bind (fun r => (xFind r "value").bind Xml.textOf)
    star_rating := (xFind programme "star-rating").bind
      (fun sr => (xFind sr "value").bind Xml.textOf)
    video_present := video.bind (fun v => (xFind v "present").bind textIsYes)
    video_colour := video.bind (fun v => (xFind v "colour").bind textIsYes)
    video_aspect := video.bind (fun v => (xFind v "aspect").bind Xml.textOf)
    video_quality := video.bind (fun v => (xFind v "quality").bind Xml.textOf)
    audio_present := audio.bind (fun a => (xFind a "present").bind textIsYes)
    audio_stereo := audio.bind (fun a => (xFind a "stereo").bind Xml.textOf)
    subtitles_type := (xFind programme "subtitles").bind (fun st => attrGet st "type")
    audio_described := if (xFind programme "audio-described").isSome then some true else none
    is_premiere := (xFind programme "premiere").isSome
    is_new := (xFind programme "new").isSome
    previously_shown := (xFind programme "previously-shown").bind (fun ps => attrGet ps "start")
    review_type := (xFind programme "review").bind (fun r => attrGet r "type")
    review_value := (xFind programme "review").bind Xml.textOf }

/-- The `channel_ids` dictionary of `store_epg_programmes` (`epgs.py:217` ..
`224`): for each upstream id of the batch, the primary key of the first
`epg_channels` row with that `(channel_id, epg_id)`.  A listed id with no
row raises in the source; it cannot arise on the import path, where the list
is exactly what `store_epg_channels` just inserted. -/
def channelIdsMap (epg_id : Nat) (channel_id_list : List (Option String))
    (s : DBState) (cid : Option String) : Option Nat :=
  if channel_id_list.contains cid then
    (s.epgChannels.find? (fun ec => ec.channel_id == cid && ec.epg_id == epg_id)).map (·.id)
  else none

/-- `store_epg_programmes` (`epgs.py:204`): parse every `.//programme`
element, skip those whose `channel` attribute is not a key of the
`channel_ids` dictionary, and bulk-insert the rest in one transaction.  The
1000-row chunked flushes share that transaction, so they are modelled as a
single append. -/
def store_epg_programmes (epg_id : Nat) (channel_id_list : List (Option String))
    (doc : Xml) (s : DBState) : DBState :=
  let newRows := (xmlProgrammes doc).filterMap (fun programme =>
    let channel_id := attrGet programme "channel"
    match channelIdsMap epg_id channel_id_list s channel_id with
    | some epg_channel_id => some (parseProgrammeRow epg_channel_id channel_id programme)
    | none => none)
  { s with programmes := s.programmes ++ newRows }

/-- Where an ingestion run stops.  `fetch`: `download_xmltv_epg` raised
before anything was stored.  `parse`: the `ET` parse inside
`store_epg_channels` raised, after `clear_epg_channel_data`'s transaction
had already committed.  `channelsTxn`: the channel transaction raised and
rolled back, the clear still committed.  `programmesTxn`: the programme
transaction raised and rolled back after the channel transaction committed. -/
inductive FailPoint where
  | fetch
  | parse
  | channelsTxn
  | programmesTxn
deriving Repr, DecidableEq

/-- `import_epg_data` (`epgs.py:426`): download, then
`clear_epg_channel_data`, `store_epg_channels`, `store_epg_programmes` — four
separately committed steps.  `fail` injects an exception at the given step;
the resulting state is what the separate transactions left behind. -/
def import_epg_data (epg_id : Nat) (doc : Xml) (fail : Option FailPoint)
    (s : DBState) : DBState :=
  match fail with
  | some .fetch => s
  | some .parse => clear_epg_channel_data epg_id s
  | some .channelsTxn => clear_epg_channel_data epg_id s
  | some .programmesTxn =>
    (store_epg_channels epg_id doc (clear_epg_channel_data epg_id s)).1
  | none =>
    let s1 := clear_epg_channel_data epg_id s
    let p := store_epg_channels epg_id doc s1
    store_epg_programmes epg_id p.2 doc p.1

/-- One source of a batch run: its id, its document, and whether (and where)
its ingestion fails. -/
structure SourceRun where
  epg_id : Nat
  doc : Xml
  fail : Option FailPoint

/-- `import_epg_data_for_all_epgs` (`epgs.py:445`): a bare `for` loop with no
exception handling, so the first failing source's exception propagates and
the remaining sources are never ingested.  The returned state is the database
at the moment the loop ends or the exception escapes. -/
def import_epg_data_for_all_epgs : List SourceRun → DBState → DBState
  | [], s => s
  | r :: rs, s =>
    match r.fail with
    | none => import_epg_data_for_all_epgs rs (import_epg_data r.epg_id r.doc none s)
    | some f => import_epg_data r.epg_id r.doc (some f) s

/-- The `epg_channels` rows belonging to one source. -/
def channelsFor (epg_id : Nat) (s : DBState) : List EpgChannelRow :=
  s.epgChannels.filter (fun ec => ec.epg_id == epg_id)

/-- The `epg_channel_programmes` rows belonging to one source (those whose
foreign key references one of the source's channel rows). -/
def programmesFor (epg_id : Nat) (s : DBState) : List ProgrammeRow :=
  s.programmes.filter (fun p =>
    ((channelsFor epg_id s).map (·.id)).contains p.epg_channel_id)

/-- The slice of the store owned by one source. -/
def epgSlice (epg_id : Nat) (s : DBState) : List EpgChannelRow × List ProgrammeRow :=
  (channelsFor epg_id s, programmesFor epg_id s)

/-- One row of the `channels` table (`Channel` in `models.py`), restricted to
the columns `build_custom_epg` reads, with the channel's tag names inlined. -/
structure ChannelRow where
  id : Nat
  enabled : Bool
  name : String
  number : Int
  logo_base64 : String
  guide_id : Option Nat
  guide_channel_id : Option String
  tags : List String
deriving Repr, DecidableEq

/-- `generate_epg_channel_id` (`epgs.py:30`): the channel number as a string. -/
def generate_epg_channel_id (number : Int) (_name : String) : String :=
  toString number

/-- Strict character-list lexicographic comparison. -/
def charListLt : List Char → List Char → Bool
  | [], [] => false
  | [], _ :: _ => true
  | _ :: _, [] => false
  | a :: as, b :: bs => if a = b then charListLt as bs else decide (a < b)

/-- Strict string comparison backing the `ORDER BY` model. -/
def pyStrLt (a b : String) : Bool := charListLt a.data b.data

/-- `ORDER BY col ASC` over a nullable text column: SQLite sorts NULLs first. -/
def optStrLt : Option String → Option String → Bool
  | none, none => false
  | none, some _ => true
  | some _, none => false
  | some a, some b => pyStrLt a b

/-- Non-strict version of `optStrLt`. -/
def optStrLe : Option String → Option String → Bool
  | none, _ => true
  | some _, none => false
  | some a, some b => pyStrLe a b

/-- The programme query's `ORDER BY (channel_id ASC, start ASC)`
(`epgs.py:498`) as a total order on programme rows. -/
def ProgLe (p q : ProgrammeRow) : Prop :=
  (if p.channel_id = q.channel_id then optStrLe p.start q.start
   else optStrLt p.channel_id q.channel_id) = true

instance : DecidableRel ProgLe := fun _ _ => instDecidableEqBool _ _

/-- The channel query's `ORDER BY number ASC` (`epgs.py:479`). -/
def ChanLe (a b : ChannelRow) : Prop := a.number ≤ b.number

instance : DecidableRel ChanLe := fun a b => Int.decLe a.number b.number

/-- The channel rows of `db.session.query(Channel).order_by(Channel.number.asc())`. -/
def sortChannels (channels : List ChannelRow) : List ChannelRow :=
  List.insertionSort ChanLe channels

/-- Whether an `epg_channels` row satisfies the guide-mapping filter
`channel.has(epg_id=result.guide_id, channel_id=result.guide_channel_id)`
(`epgs.py:495`).  SQLAlchemy coerces a comparison against Python `None` to
`IS NULL`: a NULL `guide_channel_id` mapping therefore matches guide rows
whose own `channel_id` is NULL (`Option` equality below), while a NULL
`guide_id` matches nothing because the `epg_id` column is `NOT NULL`. -/
def guideMatches (ec : EpgChannelRow) (c : ChannelRow) : Bool :=
  (match c.guide_id with
    | some g => ec.epg_id == g
    | none => false)
  && (ec.channel_id == c.guide_channel_id)

/-- Whether a programme row is returned by the per-channel query: its
foreign-key channel row exists and satisfies the guide-mapping filter. -/
def progMatches (db : DBState) (c : ChannelRow) (p : ProgrammeRow) : Bool :=
  db.epgChannels.any (fun ec => ec.id == p.epg_channel_id && guideMatches ec c)

/-- The per-channel programme query of `build_custom_epg` (`epgs.py:493` ..
`500`): the matching rows ordered by `(channel_id, start)` ascending. -/
def channelProgrammes (db : DBState) (c : ChannelRow) : List ProgrammeRow :=
  List.insertionSort ProgLe (db.programmes.filter (progMatches db c))

/-- The `<channel>` element emitted for one enabled output channel
(`epgs.py:549` .. `564`): id, stripped display name, the cache-busted logo
URL, and the fixed `live`/`active` children.  `guessExt` stands for the
`read_base46_image_string` / `guess_extension` collaborator (deterministic in
the stored logo), `cb` for the `time.time()` cache buster. -/
def channelElem (appUrl : String) (guessExt : String → String) (cb : String)
    (c : ChannelRow) : Xml :=
  .elem "channel" [("id", generate_epg_channel_id c.number c.name)] none
    [ .elem "display-name" [] (some (pyStrip c.name)) [],
      .elem "icon"
        [("src", appUrl ++ "/tic-api/channels/" ++ toString c.id ++ "/logo/"
            ++ cb ++ guessExt c.logo_base64)] none [],
      .elem "live" [] (some "true") [],
      .elem "active" [] (some "true") [] ]

/-- `output_programme.set(key, val)` guarded by `if val:` — attribute emitted
only for a truthy value. -/
def optAttr (key : String) (v : Option String) : List (String × String) :=
  match v with
  | some s => if s == "" then [] else [(key, s)]
  | none => []

/-- The attribute list of an output `<programme>` element (`epgs.py:573` ..
`582`): the four truthy-guarded time attributes, then the output channel id. -/
def progAttrs (chanId : String) (p : ProgrammeRow) : List (String × String) :=
  optAttr "start" p.start ++ optAttr "stop" p.stop
    ++ optAttr "start_timestamp" p.start_timestamp
    ++ optAttr "stop_timestamp" p.stop_timestamp
    ++ [("channel", chanId)]

/-- A child element holding only text. -/
def textElem (t : String) (s : String) : Xml := .elem t [] (some s) []

/-- The `is not None` copy loop for title/sub-title/desc/series-desc/country
(`epgs.py:584` .. `588`): an empty string is still emitted. -/
def isNotNoneElem (t : String) (v : Option String) : List Xml :=
  match v with
  | some s => [textElem t s]
  | none => []

/-- A truthy-guarded text child (`if epg_channel_programme.get(key):`). -/
def truthyElem (t : String) (v : Option String) : List Xml :=
  match v with
  | some s => if s == "" then [] else [textElem t s]
  | none => []

/-- The `<length>` output (`epgs.py:601` .. `610`): split the stored
`"value units"` back apart on the first space; without a space the whole
value is the text and the units default to `minutes`. -/
def lengthElems (v : Option String) : List Xml :=
  match v with
  | none => []
  | some l =>
    if l == "" then [] else
    match splitFirstSpace l with
    | (bef, some rest) => [.elem "length" [("units", rest)] (some bef) []]
    | (_, none) => [.elem "length" [("units", "minutes")] (some l) []]

/-- The `<credits>` output (`epgs.py:613` .. `618`). -/
def creditsElems (cr : List (String × List String)) : List Xml :=
  if cr.isEmpty then [] else
    [.elem "credits" [] none
      (cr.flatMap (fun tl => tl.2.map (fun n => textElem tl.1 n)))]

/-- The `<episode-num>` output (`epgs.py:621` .. `624`): emitted only when
both the stored system and the stored value are truthy. -/
def episodeElems (p : ProgrammeRow) : List Xml :=
  if truthy p.episode_num_system && truthy p.episode_num_value then
    [.elem "episode-num" [("system", p.episode_num_system.getD "")]
      (some (p.episode_num_value.getD "")) []]
  else []

/-- The `<rating>` output (`epgs.py:627` .. `631`): emitted only when both
the stored system and the stored value are truthy. -/
def ratingElems (p : ProgrammeRow) : List Xml :=
  if truthy p.rating_system && truthy p.rating_value then
    [.elem "rating" [("system", p.rating_system.getD "")] none
      [textElem "value" (p.rating_value.getD "")]]
  else []

/-- The `<star-rating>` output (`epgs.py:634` .. `637`). -/
def starRatingElems (p : ProgrammeRow) : List Xml :=
  match p.star_rating with
  | some s => if s == "" then [] else [.elem "star-rating" [] none [textElem "value" s]]
  | none => []

/-- An `is not None`-guarded yes/no entry of the video/audio info dicts. -/
def yesNoPair (key : String) (v : Option Bool) : List (String × String) :=
  match v with
  | some b => [(key, if b then "yes" else "no")]
  | none => []

/-- A truthy-guarded entry of the video/audio info dicts. -/
def truthyPair (key : String) (v : Option String) : List (String × String) :=
  match v with
  | some s => if s == "" then [] else [(key, s)]
  | none => []

/-- The `video_info` dict in insertion order (`epgs.py:640` .. `648`). -/
def videoPairs (p : ProgrammeRow) : List (String × String) :=
  yesNoPair "present" p.video_present ++ yesNoPair "colour" p.video_colour
    ++ truthyPair "aspect" p.video_aspect ++ truthyPair "quality" p.video_quality

/-- The `audio_info` dict in insertion order (`epgs.py:657` .. `661`). -/
def audioPairs (p : ProgrammeRow) : List (String × String) :=
  yesNoPair "present" p.audio_present ++ truthyPair "stereo" p.audio_stereo

/-- A `<video>`/`<audio>` element from a non-empty info dict
(`epgs.py:650` .. `667`). -/
def infoElem (t : String) (pairs : List (String × String)) : List Xml :=
  if pairs.isEmpty then [] else
    [.elem t [] none (pairs.map (fun kv => textElem kv.1 kv.2))]

/-- A truthy-guarded empty element carrying one attribute (the
`<subtitles type=...>` and `<previously-shown start=...>` outputs). -/
def truthyAttrElem (t key : String) (v : Option String) : List Xml :=
  match v with
  | some s => if s == "" then [] else [.elem t [(key, s)] none []]
  | none => []

/-- A boolean-guarded empty flag element (`<audio-described/>`, `<premiere/>`,
`<new/>`). -/
def flagElem (t : String) (b : Bool) : List Xml :=
  if b then [.elem t [] none []] else []

/-- The `<review>` output (`epgs.py:692` .. `696`): emitted when the stored
value is truthy; the `type` attribute only when itself truthy. -/
def reviewElems (p : ProgrammeRow) : List Xml :=
  match p.review_value with
  | some v =>
    if v == "" then [] else
      [.elem "review" (truthyPair "type" p.review_type) (some v) []]
  | none => []

/-- The programme `<icon>` output (`epgs.py:699` .. `703`). -/
def progIconElems (p : ProgrammeRow) : List Xml :=
  match p.icon_url with
  | some u => if u == "" then [] else
      [.elem "icon" [("src", u), ("height", ""), ("width", "")] none []]
  | none => []

/-- The ordered children of an output `<programme>` element
(`epgs.py:584` .. `722`), block for block in emission order; the channel's
tags end the list as extra `category` entries. -/
def progChildren (tags : List String) (p : ProgrammeRow) : List Xml :=
  isNotNoneElem "title" p.title
    ++ isNotNoneElem "sub-title" p.sub_title
    ++ isNotNoneElem "desc" p.desc
    ++ isNotNoneElem "series-desc" p.series_desc
    ++ isNotNoneElem "country" p.country
    ++ truthyElem "url" p.url
    ++ truthyElem "date" p.date
    ++ lengthElems p.length
    ++ creditsElems (p.credits.getD [])
    ++ episodeElems p
    ++ ratingElems p
    ++ starRatingElems p
    ++ infoElem "video" (videoPairs p)
    ++ infoElem "audio" (audioPairs p)
    ++ truthyAttrElem "subtitles" "type" p.subtitles_type
    ++ flagElem "audio-described" (truthyB p.audio_described)
    ++ flagElem "premiere" p.is_premiere
    ++ flagElem "new" p.is_new
    ++ truthyAttrElem "previously-shown" "start" p.previously_shown
    ++ reviewElems p
    ++ progIconElems p
    ++ (p.keywords.getD []).map (fun kw => .elem "keyword" [("lang", "en")] (some kw) [])
    ++ (p.categories.getD []).map (fun c => .elem "category" [("lang", "en")] (some c) [])
    ++ tags.map (fun tag => .elem "category" [("lang", "en")] (some tag) [])

/-- The full output `<programme>` element for one stored row, referenced to
the output channel's identity. -/
def progElemOut (chanId : String) (tags : List String) (p : ProgrammeRow) : Xml :=
  .elem "programme" (progAttrs chanId p) none (progChildren tags p)

/-- `build_custom_epg` (`epgs.py:464`): the `<tv>` root with its fixed
generator attributes; one `<channel>` element per enabled output channel in
ascending channel-number order, then the programme elements of those
channels in the same channel order.  `cacheBuster i` is the `time.time()`
value observed for the `i`-th enabled channel. -/
def build_custom_epg (appUrl : String) (guessExt : String → String)
    (cacheBuster : Nat → String) (channels : List ChannelRow) (db : DBState) : Xml :=
  let enabledChannels := (sortChannels channels).filter (·.enabled)
  let chElems := enabledChannels.enum.map
    (fun ic => channelElem appUrl guessExt (cacheBuster ic.1) ic.2)
  let progElems := enabledChannels.flatMap (fun c =>
    (channelProgrammes db c).map
      (progElemOut (generate_epg_channel_id c.number c.name) c.tags))
  .elem "tv"
    [("generator-info-name", "TVH-IPTV-Config"),
     ("source-info-name", "TVH-IPTV-Config - v0.1")] none
    (chElems ++ progElems)

/-- Replace the `src` attribute of an `<icon>` element by the empty string;
identity on every other element. -/
def scrubIcon (x : Xml) : Xml :=
  match x with
  | .elem t a txt ch =>
    if t == "icon" then
      .elem t (a.map (fun kv => if kv.1 == "src" then (kv.1, "") else kv)) txt ch
    else .elem t a txt ch

/-- Blank the icon URLs inside a `<channel>` element; identity elsewhere. -/
def scrubChannel (x : Xml) : Xml :=
  match x with
  | .elem t a txt ch =>
    if t == "channel" then .elem t a txt (ch.map scrubIcon) else .elem t a txt ch

/-- Blank every channel-logo URL of an output document: the only place the
time-based cache buster is embedded. -/
def scrubLogos (x : Xml) : Xml :=
  match x with
  | .elem t a txt ch => .elem t a txt (ch.map scrubChannel)

/-- A TMDB search result: the fields `update_programme_with_online_data`
reads from the first result of the title search. -/
structure TmdbResult where
  title : Option String
  overview : Option String
  poster_path : Option String
deriving Repr, DecidableEq

/-- The two enrichment toggles read from the settings. -/
structure EnrichSettings where
  enable_tmdb_metadata : Bool
  enable_google_image_search_metadata : Bool
deriving Repr, DecidableEq

/-- Python f-string rendering of an optional value (`None` prints as `"None"`,
as in `f"https://image.tmdb.org/t/p/w500{tmdb_data.get('poster_path')}"`). -/
def pyFStr : Option String → String
  | some s => s
  | none => "None"

/-- `update_programme_with_online_data` (`epgs.py:793`): the TMDB stage runs
only when subtitle, description and icon are all falsy; the Google-image
stage runs whenever the icon is still falsy.  `tmdb` and `goog` are the
providers' responses for this programme's title (`none` = no result). -/
def update_programme_with_online_data (st : EnrichSettings)
    (tmdb : Option TmdbResult) (goog : Option String) (p : ProgrammeRow) :
    ProgrammeRow :=
  let p1 :=
    if !(truthy p.sub_title || truthy p.desc || truthy p.icon_url) then
      if st.enable_tmdb_metadata then
        match tmdb with
        | some d =>
          let pa := if truthy p.sub_title then p else { p with sub_title := d.title }
          let pb := if truthy pa.desc then pa else { pa with desc := d.overview }
          if truthy pb.icon_url then pb
          else { pb with
            icon_url := some ("https://image.tmdb.org/t/p/w500" ++ pyFStr d.poster_path) }
        | none => p
      else p
    else p
  if !(truthy p1.icon_url) then
    if st.enable_google_image_search_metadata then
      if truthy goog then { p1 with icon_url := goog } else p1
    else p1
  else p1

/-- One provider's cache: title ↦ cached lookup result.  A stored `none`
records a completed no-result lookup (`cache['tmdb'][title] = None`). -/
abbrev LookupCache := List (String × Option TmdbResult)

/-- Membership-distinguishing lookup (`if title in cache['tmdb']`). -/
def cacheLookup (c : LookupCache) (title : String) : Option (Option TmdbResult) :=
  ((List.find? (fun kv => kv.1 == title)) c).map (·.2)

/-- Python dict assignment: overwrite an existing key, else append. -/
def cacheInsert (c : LookupCache) (title : String) (v : Option TmdbResult) :
    LookupCache :=
  if ((List.find? (fun kv => kv.1 == title)) c).isSome then
    List.map (fun kv => if kv.1 == title then (kv.1, v) else kv) c
  else c ++ [(title, v)]

/-- Program counter of one `search_tmdb_for_movie` call (`epgs.py:735`):
`check` is the locked cache check, `request` the external HTTP call issued
after the lock is released, `write` the locked cache write-and-return.
Because the lock is not held across `request`, steps of different calls may
interleave. -/
inductive TaskPC where
  | check
  | request
  | write
  | done
deriving Repr, DecidableEq

/-- One in-flight lookup call: its title, program counter, the response it
is holding between `request` and `write`, and its return value once done. -/
structure LookupTask where
  title : String
  pc : TaskPC
  pending : Option TmdbResult
  result : Option (Option TmdbResult)
deriving Repr, DecidableEq

/-- The shared enrichment state: the title cache, the number of external
calls issued so far, and the per-call task states. -/
structure LookupSystem where
  cache : LookupCache
  calls : Nat
  tasks : List LookupTask
deriving DecidableEq

/-- One atomic step of task `i`.  `oracle` is the external provider's
response per title (deterministic across a batch). -/
def stepTask (oracle : String → Option TmdbResult) (sys : LookupSystem)
    (i : Nat) : LookupSystem :=
  match sys.tasks.get? i with
  | none => sys
  | some t =>
    match t.pc with
    | .check =>
      match cacheLookup sys.cache t.title with
      | some v =>
        { sys with tasks := sys.tasks.set i { t with pc := .done, result := some v } }
      | none =>
        { sys with tasks := sys.tasks.set i { t with pc := .request } }
    | .request =>
      { sys with
          calls := sys.calls + 1
          tasks := sys.tasks.set i { t with pc := .write, pending := oracle t.title } }
    | .write =>
      { sys with
          cache := cacheInsert sys.cache t.title t.pending
          tasks := sys.tasks.set i { t with pc := .done, result := some t.pending } }
    | .done => sys

/-- Run an interleaving: the schedule names which task takes the next step. -/
def runSchedule (oracle : String → Option TmdbResult) (sched : List Nat)
    (sys : LookupSystem) : LookupSystem :=
  sched.foldl (stepTask oracle) sys

/-- Two concurrent lookups for the same title starting from an empty cache
(two same-title programmes of one batch entering `search_tmdb_for_movie`). -/
def twoLookups (title : String) : LookupSystem :=
  { cache := []
    calls := 0
    tasks := [⟨title, .check, none, none⟩, ⟨title, .check, none, none⟩] }

/-- A programme row with every optional column NULL and both flags unset. -/
def emptyProgrammeRow : ProgrammeRow :=
  { epg_channel_id := 0, channel_id := none, title := none, sub_title := none
    desc := none, series_desc := none, icon_url := none, country := none
    start := none, stop := none, start_timestamp := none, stop_timestamp := none
    categories := none, url := none, date := none, length := none
    keywords := none, credits := none, episode_num_system := none
    episode_num_value := none, rating_system := none, rating_value := none
    star_rating := none, video_present := none, video_colour := none
    video_aspect := none, video_quality := none, audio_present := none
    audio_stereo := none, subtitles_type := none, audio_described := none
    is_premiere := false, is_new := false, previously_shown := none
    review_type := none, review_value := none }

/-- What the `channel_ids` dictionary evaluates to on the import path, as a
function of the document and the autoincrement start id alone: the id of the
first freshly inserted channel row carrying the upstream id. -/
def channelIdsMapPure (epg_id : Nat) (doc : Xml) (startId : Nat)
    (cid : Option String) : Option Nat :=
  if ((xmlChannels doc).map (fun c => attrGet c "id")).contains cid then
    ((assignIds epg_id startId (xmlChannels doc)).find?
      (fun ec => ec.channel_id == cid && ec.epg_id == epg_id)).map (·.id)
  else none

/-- The guide-channel rows a successful ingestion of `doc` leaves for its
source, as a function of the document and the autoincrement start id alone. -/
def ingestedChannels (epg_id : Nat) (doc : Xml) (startId : Nat) : List EpgChannelRow :=
  assignIds epg_id startId (xmlChannels doc)

/-- The programme rows a successful ingestion of `doc` leaves for its source,
as a function of the document and the autoincrement start id alone. -/
def ingestedProgrammes (epg_id : Nat) (doc : Xml) (startId : Nat) : List ProgrammeRow :=
  (xmlProgrammes doc).filterMap (fun programme =>
    match channelIdsMapPure epg_id doc startId (attrGet programme "channel") with
    | some epg_channel_id =>
        some (parseProgrammeRow epg_channel_id (attrGet programme "channel") programme)
    | none => none)

lemma charListLe_total (as : List Char) : ∀ bs, charListLe as bs = true ∨ charListLe bs as = true := by
  induction as with
  | nil => intro bs; left; rfl
  | cons a as ih =>
    intro bs
    cases bs with
    | nil => right; rfl
    | cons b bs =>
      by_cases hab : a = b
      · subst hab
        rcases ih bs with h | h
        · left; simpa [charListLe] using h
        · right; simpa [charListLe] using h
      · rcases lt_or_gt_of_ne hab with h | h
        · left; simp [charListLe, hab, h]
        · right; simp [charListLe, Ne.symm hab, h]

lemma charListLe_trans : ∀ as bs cs : List Char,
    charListLe as bs = true → charListLe bs cs = true → charListLe as cs = true := by
  intro as
  induction as with
  | nil => intro bs cs _ _; rfl
  | cons a as ih =>
    intro bs cs h1 h2
    cases bs with
    | nil => simp [charListLe] at h1
    | cons b bs =>
      cases cs with
      | nil => simp [charListLe] at h2
      | cons c cs =>
        by_cases hab : a = b <;> by_cases hbc : b = c
        · subst hab; subst hbc
          simp only [charListLe, if_pos rfl] at h1 h2 ⊢
          exact ih bs cs h1 h2
        · subst hab
          simp only [charListLe, if_pos rfl] at h1
          simp only [charListLe, if_neg hbc] at h2 ⊢
          exact h2
        · subst hbc
          simp only [charListLe, if_neg hab] at h1 ⊢
          exact h1
        · simp only [charListLe, if_neg hab] at h1
          simp only [charListLe, if_neg hbc] at h2
          have hac : a < c := lt_trans (of_decide_eq_true h1) (of_decide_eq_true h2)
          simp [charListLe, ne_of_lt hac, hac]

lemma charListLt_trans : ∀ as bs cs : List Char,
    charListLt as bs = true → charListLt bs cs = true → charListLt as cs = true := by
  intro as
  induction as with
  | nil =>
    intro bs cs h1 h2
    cases bs with
    | nil => simp [charListLt] at h1
    | cons b bs =>
      cases cs with
      | nil => simp [charListLt] at h2
      | cons c cs => rfl
  | cons a as ih =>
    intro bs cs h1 h2
    cases bs with
    | nil => simp [charListLt] at h1
    | cons b bs =>
      cases cs with
      | nil => simp [charListLt] at h2
      | cons c cs =>
        by_cases hab : a = b <;> by_cases hbc : b = c
        · subst hab; subst hbc
          simp only [charListLt, if_pos rfl] at h1 h2 ⊢
          exact ih bs cs h1 h2
        · subst hab
          simp only [charListLt, if_pos rfl] at h1
          simp only [charListLt, if_neg hbc] at h2 ⊢
          exact h2
        · subst hbc
          simp only [charListLt, if_neg hab] at h1 ⊢
          exact h1
        · simp only [charListLt, if_neg hab] at h1
          simp only [charListLt, if_neg hbc] at h2
          have hac : a < c := lt_trans (of_decide_eq_true h1) (of_decide_eq_true h2)
          simp [charListLt, ne_of_lt hac, hac]

lemma charListLt_ne : ∀ as bs : List Char, charListLt as bs = true → as ≠ bs := by
  intro as
  induction as with
  | nil =>
    intro bs h
    cases bs with
    | nil => simp [charListLt] at h
    | cons b bs => simp
  | cons a as ih =>
    intro bs h
    cases bs with
    | nil => simp [charListLt] at h
    | cons b bs =>
      by_cases hab : a = b
      · subst hab
        simp only [charListLt, if_pos rfl] at h
        simpa using ih bs h
      · simpa using fun he _ => hab he

lemma charListLt_tri : ∀ as bs : List Char, as ≠ bs →
    charListLt as bs = true ∨ charListLt bs as = true := by
  intro as
  induction as with
  | nil =>
    intro bs hne
    cases bs with
    | nil => exact absurd rfl hne
    | cons b bs => left; rfl
  | cons a as ih =>
    intro bs hne
    cases bs with
    | nil => right; rfl
    | cons b bs =>
      by_cases hab : a = b
      · subst hab
        have : as ≠ bs := by intro h; exact hne (by rw [h])
        rcases ih bs this with h | h
        · left; simpa [charListLt] using h
        · right; simpa [charListLt] using h
      · rcases lt_or_gt_of_ne hab with h | h
        · left; simp [charListLt, hab, h]
        · right; simp [charListLt, Ne.symm hab, h]

lemma optStrLe_total (x y : Option String) : optStrLe x y = true ∨ optStrLe y x = true := by
  cases x with
  | none => left; rfl
  | some a =>
    cases y with
    | none => right; rfl
    | some b => exact charListLe_total a.data b.data

lemma optStrLe_trans (x y z : Option String) (h1 : optStrLe x y = true)
    (h2 : optStrLe y z = true) : optStrLe x z = true := by
  cases x with
  | none => rfl
  | some a =>
    cases y with
    | none => simp [optStrLe] at h1
    | some b =>
      cases z with
      | none => simp [optStrLe] at h2
      | some c => exact charListLe_trans a.data b.data c.data h1 h2

lemma optStrLt_trans (x y z : Option String) (h1 : optStrLt x y = true)
    (h2 : optStrLt y z = true) : optStrLt x z = true := by
  cases x with
  | none =>
    cases y with
    | none => simp [optStrLt] at h1
    | some b =>
      cases z with
      | none => simp [optStrLt] at h2
      | some c => rfl
  | some a =>
    cases y with
    | none => simp [optStrLt] at h1
    | some b =>
      cases z with
      | none => simp [optStrLt] at h2
      | some c => exact charListLt_trans a.data b.data c.data h1 h2

lemma optStrLt_ne (x y : Option String) (h : optStrLt x y = true) : x ≠ y := by
  cases x with
  | none =>
    cases y with
    | none => simp [optStrLt] at h
    | some b => simp
  | some a =>
    cases y with
    | none => simp [optStrLt] at h
    | some b =>
      have : a ≠ b := fun he => charListLt_ne a.data b.data h (by rw [he])
      simpa using this

lemma optStrLt_tri (x y : Option String) (hne : x ≠ y) :
    optStrLt x y = true ∨ optStrLt y x = true := by
  cases x with
  | none =>
    cases y with
    | none => exact absurd rfl hne
    | some b => left; rfl
  | some a =>
    cases y with
    | none => right; rfl
    | some b =>
      have hab : a ≠ b := by intro h; exact hne (by rw [h])
      have : a.data ≠ b.data := fun h => hab (String.ext h)
      exact charListLt_tri a.data b.data this

instance : IsTotal ProgrammeRow ProgLe where
  total p q := by
    unfold ProgLe
    by_cases h : p.channel_id = q.channel_id
    · rw [if_pos h, if_pos h.symm]
      exact optStrLe_total _ _
    · rw [if_neg h, if_neg (Ne.symm h)]
      exact optStrLt_tri _ _ h

instance : IsTrans ProgrammeRow ProgLe where
  trans p q r h1 h2 := by
    unfold ProgLe at h1 h2 ⊢
    by_cases hpq : p.channel_id = q.channel_id <;> by_cases hqr : q.channel_id = r.channel_id
    · rw [if_pos hpq] at h1; rw [if_pos hqr] at h2
      rw [if_pos (hpq.trans hqr)]
      exact optStrLe_trans _ _ _ h1 h2
    · rw [if_pos hpq] at h1; rw [if_neg hqr] at h2
      rw [if_neg (by rw [hpq]; exact hqr), hpq]
      exact h2
    · rw [if_neg hpq] at h1; rw [if_pos hqr] at h2
      rw [if_neg (by rw [← hqr]; exact hpq), ← hqr]
      exact h1
    · rw [if_neg hpq] at h1; rw [if_neg hqr] at h2
      have hpr := optStrLt_trans _ _ _ h1 h2
      rw [if_neg (optStrLt_ne _ _ hpr)]
      exact hpr

instance : IsTotal ChannelRow ChanLe where
  total a b := Int.le_total a.number b.number

instance : IsTrans ChannelRow ChanLe where
  trans _ _ _ h1 h2 := Int.le_trans h1 h2

lemma tag_channelElem (appUrl : String) (guessExt : String → String) (cb : String)
    (c : ChannelRow) : (channelElem appUrl guessExt cb c).tag = "channel" := rfl

lemma tag_progElemOut (chanId : String) (tags : List String) (p : ProgrammeRow) :
    (progElemOut chanId tags p).tag = "programme" := rfl

lemma programme_children_of_build (appUrl : String) (guessExt : String → String)
    (cacheBuster : Nat → String) (channels : List ChannelRow) (db : DBState) :
    (build_custom_epg appUrl guessExt cacheBuster channels db).children.filter
        (fun x => x.tag == "programme")
      = ((sortChannels channels).filter (·.enabled)).flatMap (fun c =>
          (channelProgrammes db c).map
            (progElemOut (generate_epg_channel_id c.number c.name) c.tags)) := by
  simp only [build_custom_epg, Xml.children]
  rw [List.filter_append]
  have hch : List.filter (fun x => x.tag == "programme")
      (((sortChannels channels).filter (·.enabled)).enum.map
        (fun ic => channelElem appUrl guessExt (cacheBuster ic.1) ic.2)) = [] := by
    rw [List.filter_eq_nil]
    intro a ha
    rcases List.mem_map.mp ha with ⟨ic, _, rfl⟩
    rw [tag_channelElem]
    decide
  have hpr : List.filter (fun x => x.tag == "programme")
      (((sortChannels channels).filter (·.enabled)).flatMap (fun c =>
        (channelProgrammes db c).map
          (progElemOut (generate_epg_channel_id c.number c.name) c.tags)))
      = ((sortChannels channels).filter (·.enabled)).flatMap (fun c =>
        (channelProgrammes db c).map
          (progElemOut (generate_epg_channel_id c.number c.name) c.tags)) := by
    rw [List.filter_eq_self]
    intro a ha
    rcases List.mem_flatMap.mp ha with ⟨c, _, hmem⟩
    rcases List.mem_map.mp hmem with ⟨p, _, rfl⟩
    rw [tag_progElemOut]
    rfl
  rw [hch, hpr, List.nil_append]

lemma channel_children_of_build (appUrl : String) (guessExt : String → String)
    (cacheBuster : Nat → String) (channels : List ChannelRow) (db : DBState) :
    (build_custom_epg appUrl guessExt cacheBuster channels db).children.filter
        (fun x => x.tag == "channel")
      = ((sortChannels channels).filter (·.enabled)).enum.map
          (fun ic => channelElem appUrl guessExt (cacheBuster ic.1) ic.2) := by
  simp only [build_custom_epg, Xml.children]
  rw [List.filter_append]
  have hch : List.filter (fun x => x.tag == "channel")
      (((sortChannels channels).filter (·.enabled)).enum.map
        (fun ic => channelElem appUrl guessExt (cacheBuster ic.1) ic.2))
      = ((sortChannels channels).filter (·.enabled)).enum.map
        (fun ic => channelElem appUrl guessExt (cacheBuster ic.1) ic.2) := by
    rw [List.filter_eq_self]
    intro a ha
    rcases List.mem_map.mp ha with ⟨ic, _, rfl⟩
    rw [tag_channelElem]
    rfl
  have hpr : List.filter (fun x => x.tag == "channel")
      (((sortChannels channels).filter (·.enabled)).flatMap (fun c =>
        (channelProgrammes db c).map
          (progElemOut (generate_epg_channel_id c.number c.name) c.tags))) = [] := by
    rw [List.filter_eq_nil]
    intro a ha
    rcases List.mem_flatMap.mp ha with ⟨c, _, hmem⟩
    rcases List.mem_map.mp hmem with ⟨p, _, rfl⟩
    rw [tag_progElemOut]
    decide
  rw [hch, hpr, List.append_nil]

lemma find?_channel_optAttr (k : String) (v : Option String)
    (h : (k == "channel") = false) :
    List.find? (fun kv => kv.1 == "channel") (optAttr k v) = none := by
  cases v with
  | none => rfl
  | some s =>
    by_cases hs : (s == "") = true
    · simp [optAttr, hs]
    · simp [optAttr, hs, List.find?, h]

lemma attrGet_progElemOut_channel (chanId : String) (tags : List String)
    (p : ProgrammeRow) : attrGet (progElemOut chanId tags p) "channel" = some chanId := by
  show ((progAttrs chanId p).find? (fun kv => kv.1 == "channel")).map (·.2) = some chanId
  unfold progAttrs
  rw [List.find?_append, List.find?_append, List.find?_append, List.find?_append]
  rw [find?_channel_optAttr _ _ (by decide), find?_channel_optAttr _ _ (by decide),
      find?_channel_optAttr _ _ (by decide), find?_channel_optAttr _ _ (by decide)]
  rfl

/-- C5: synthesis processes exactly the OutputChannels with `enabled=true`,
in ascending channel-number order; each processed channel's programmes are
ordered by (channel identity, start ascending); the emitted programme
elements are exactly the per-channel blocks in that channel order; and every
emitted programme element's `channel` attribute is the OutputChannel's own
identity (`generate_epg_channel_id`, the channel-number string), never the
upstream guide channel-id. -/
theorem c5_synthesis_order_and_identity (appUrl : String)
    (guessExt : String → String) (cacheBuster : Nat → String)
    (channels : List ChannelRow) (db : DBState) :
    ((sortChannels channels).filter (·.enabled)).Perm (channels.filter (·.enabled))
  ∧ List.Sorted ChanLe ((sortChannels channels).filter (·.enabled))
  ∧ (∀ c, List.Sorted ProgLe (channelProgrammes db c))
  ∧ (build_custom_epg appUrl guessExt cacheBuster channels db).children.filter
        (fun x => x.tag == "programme")
      = ((sortChannels channels).filter (·.enabled)).flatMap (fun c =>
          (channelProgrammes db c).map
            (progElemOut (generate_epg_channel_id c.number c.name) c.tags))
  ∧ (∀ chanId tags p, attrGet (progElemOut chanId tags p) "channel" = some chanId) := by
  refine ⟨?_, ?_, ?_, ?_, ?_⟩
  · exact (List.perm_insertionSort ChanLe channels).filter _
  · exact List.Pairwise.filter _ (List.sorted_insertionSort ChanLe channels)
  · intro c
    exact List.sorted_insertionSort ProgLe _
  · exact programme_children_of_build appUrl guessExt cacheBuster channels db
  · exact attrGet_progElemOut_channel

lemma scrubChannel_channelElem (appUrl : String) (guessExt : String → String)
    (cb : String) (c : ChannelRow) :
    scrubChannel (channelElem appUrl guessExt cb c) =
      Xml.elem "channel" [("id", generate_epg_channel_id c.number c.name)] none
        [ .elem "display-name" [] (some (pyStrip c.name)) [],
          .elem "icon" [("src", "")] none [],
          .elem "live" [] (some "true") [],
          .elem "active" [] (some "true") [] ] := rfl

/-- C9: for a fixed set of stored OutputChannel, GuideChannel and Programme
rows, two synthesis runs differ only through the time-based cache buster
embedded in the channel logo URLs: after blanking those URLs the two output
documents are identical, whatever `time.time()` returned in each run. -/
theorem c9_synthesis_idempotent (appUrl : String) (guessExt : String → String)
    (cacheBuster1 cacheBuster2 : Nat → String) (channels : List ChannelRow)
    (db : DBState) :
    scrubLogos (build_custom_epg appUrl guessExt cacheBuster1 channels db)
      = scrubLogos (build_custom_epg appUrl guessExt cacheBuster2 channels db) := by
  simp only [build_custom_epg, scrubLogos]
  congr 1
  rw [List.map_append, List.map_append]
  congr 1
  rw [List.map_map, List.map_map]
  apply List.map_congr_left
  intro ic _
  show scrubChannel (channelElem appUrl guessExt (cacheBuster1 ic.1) ic.2)
    = scrubChannel (channelElem appUrl guessExt (cacheBuster2 ic.1) ic.2)
  rw [scrubChannel_channelElem, scrubChannel_channelElem]

lemma attrGet_channelElem_id (appUrl : String) (guessExt : String → String)
    (cb : String) (c : ChannelRow) :
    attrGet (channelElem appUrl guessExt cb c) "id"
      = some (generate_epg_channel_id c.number c.name) := rfl

lemma channelProgrammes_eq_nil_of_gap (db : DBState) (c : ChannelRow)
    (hgap : ∀ ec ∈ db.epgChannels, guideMatches ec c = false) :
    channelProgrammes db c = [] := by
  unfold channelProgrammes
  have : db.programmes.filter (progMatches db c) = [] := by
    rw [List.filter_eq_nil]
    intro p _
    unfold progMatches
    intro hany
    rcases List.any_eq_true.mp hany with ⟨ec, hec, hb⟩
    exact absurd (Bool.and_elim_right hb) (by rw [hgap ec hec]; decide)
  rw [this]
  rfl

/-- Counterexample to C6: an enabled OutputChannel whose guide mapping
resolves to nothing is NOT excluded from the output document — synthesis
still emits a `<channel>` element carrying its identity (here `"102"`),
merely with zero programme elements. -/
theorem c6_counterexample :
    (((build_custom_epg "http://app" (fun _ => ".png") (fun _ => "123")
        [⟨6, true, "Dead", 102, "logo", some 99, some "nope", []⟩]
        ⟨[], [], 1⟩).children.filter (fun x => x.tag == "channel")).map
      (fun x => attrGet x "id")) = [some "102"]
  ∧ ((build_custom_epg "http://app" (fun _ => ".png") (fun _ => "123")
        [⟨6, true, "Dead", 102, "logo", some 99, some "nope", []⟩]
        ⟨[], [], 1⟩).children.filter (fun x => x.tag == "programme")).length = 0 := by
  constructor
  · decide
  · decide

/-- C6 amended: for every enabled OutputChannel whose guide mapping does not
resolve, synthesis yields zero programmes for that channel, without error,
and every channel's programme block is computed independently of the others;
disabled OutputChannels are excluded (every emitted `<channel>` element
belongs to an enabled row), but an unmapped enabled OutputChannel still
appears as a `<channel>` element in the output document. -/
theorem c6_amended (appUrl : String) (guessExt : String → String)
    (cacheBuster : Nat → String) (channels : List ChannelRow) (db : DBState)
    (c : ChannelRow) (hmem : c ∈ channels) (hen : c.enabled = true)
    (hgap : ∀ ec ∈ db.epgChannels, guideMatches ec c = false) :
    channelProgrammes db c = []
  ∧ some (generate_epg_channel_id c.number c.name) ∈
      (((build_custom_epg appUrl guessExt cacheBuster channels db).children.filter
        (fun x => x.tag == "channel")).map (fun x => attrGet x "id"))
  ∧ (build_custom_epg appUrl guessExt cacheBuster channels db).children.filter
        (fun x => x.tag == "programme")
      = ((sortChannels channels).filter (·.enabled)).flatMap (fun c' =>
          (channelProgrammes db c').map
            (progElemOut (generate_epg_channel_id c'.number c'.name) c'.tags))
  ∧ (∀ x ∈ (build_custom_epg appUrl guessExt cacheBuster channels db).children.filter
        (fun x => x.tag == "channel"),
      ∃ c' ∈ channels, c'.enabled = true
        ∧ attrGet x "id" = some (generate_epg_channel_id c'.number c'.name)) := by
  refine ⟨channelProgrammes_eq_nil_of_gap db c hgap, ?_, ?_, ?_⟩
  · rw [channel_children_of_build]
    have hcs : c ∈ (sortChannels channels).filter (·.enabled) := by
      rw [List.mem_filter]
      exact ⟨((List.perm_insertionSort ChanLe channels).mem_iff).mpr hmem, hen⟩
    have : c ∈ ((sortChannels channels).filter (·.enabled)).enum.map Prod.snd := by
      rw [List.enum_map_snd]
      exact hcs
    rcases List.mem_map.mp this with ⟨ic, hic, hsnd⟩
    rw [List.map_map]
    apply List.mem_map.mpr
    refine ⟨ic, hic, ?_⟩
    show attrGet (channelElem appUrl guessExt (cacheBuster ic.1) ic.2) "id" = _
    rw [attrGet_channelElem_id, hsnd]
  · exact programme_children_of_build appUrl guessExt cacheBuster channels db
  · intro x hx
    rw [channel_children_of_build] at hx
    rcases List.mem_map.mp hx with ⟨ic, hic, rfl⟩
    have h1 := List.mem_enum hic
    have h2 : ic.2 ∈ (sortChannels channels).filter (·.enabled) := by
      rcases ic with ⟨i, cc⟩
      rcases h1 with ⟨hlt, hget⟩
      rw [hget]
      exact List.getElem_mem hlt
    rw [List.mem_filter] at h2
    exact ⟨ic.2, ((List.perm_insertionSort ChanLe channels).mem_iff).mp h2.1, h2.2,
      attrGet_channelElem_id appUrl guessExt (cacheBuster ic.1) ic.2⟩

/-- Witness instantiating the amended C6: a concrete enabled OutputChannel
(number 102) mapped to a deleted source, over an empty store. -/
theorem c6_amended_witness :
    ((⟨6, true, "Dead", 102, "logo", some 99, some "nope", []⟩ : ChannelRow) ∈
        [(⟨6, true, "Dead", 102, "logo", some 99, some "nope", []⟩ : ChannelRow)]
      ∧ (⟨6, true, "Dead", 102, "logo", some 99, some "nope", []⟩ : ChannelRow).enabled = true)
  ∧ (channelProgrammes ⟨[], [], 1⟩ ⟨6, true, "Dead", 102, "logo", some 99, some "nope", []⟩ = []
      ∧ some (generate_epg_channel_id (102 : Int) "Dead") ∈
          (((build_custom_epg "http://app" (fun _ => ".png") (fun _ => "123")
            [⟨6, true, "Dead", 102, "logo", some 99, some "nope", []⟩]
            ⟨[], [], 1⟩).children.filter (fun x => x.tag == "channel")).map
              (fun x => attrGet x "id"))
      ∧ (build_custom_epg "http://app" (fun _ => ".png") (fun _ => "123")
            [⟨6, true, "Dead", 102, "logo", some 99, some "nope", []⟩]
            ⟨[], [], 1⟩).children.filter (fun x => x.tag == "programme")
          = ((sortChannels [⟨6, true, "Dead", 102, "logo", some 99, some "nope", []⟩]).filter
              (·.enabled)).flatMap (fun c' =>
                (channelProgrammes ⟨[], [], 1⟩ c').map
                  (progElemOut (generate_epg_channel_id c'.number c'.name) c'.tags))
      ∧ (∀ x ∈ (build_custom_epg "http://app" (fun _ => ".png") (fun _ => "123")
            [⟨6, true, "Dead", 102, "logo", some 99, some "nope", []⟩]
            ⟨[], [], 1⟩).children.filter (fun x => x.tag == "channel"),
          ∃ c' ∈ [(⟨6, true, "Dead", 102, "logo", some 99, some "nope", []⟩ : ChannelRow)],
            c'.enabled = true
              ∧ attrGet x "id" = some (generate_epg_channel_id c'.number c'.name))) :=
  ⟨⟨by decide, by decide⟩,
    c6_amended "http://app" (fun _ => ".png") (fun _ => "123")
      [⟨6, true, "Dead", 102, "logo", some 99, some "nope", []⟩] ⟨[], [], 1⟩
      ⟨6, true, "Dead", 102, "logo", some 99, some "nope", []⟩
      (by decide) (by decide) (by intro ec h; exact absurd h (List.not_mem_nil ec))⟩

lemma channelsFor_clear (epg_id : Nat) (s : DBState) :
    channelsFor epg_id (clear_epg_channel_data epg_id s) = [] := by
  unfold channelsFor clear_epg_channel_data
  rw [List.filter_filter, List.filter_eq_nil]
  intro ec hec
  intro hb
  have h1 : (ec.epg_id == epg_id) = true := Bool.and_elim_left hb
  have h2 := Bool.and_elim_right hb
  have hidmem : ec.id ∈ (s.epgChannels.filter (fun e => e.epg_id == epg_id)).map (·.id) :=
    List.mem_map.mpr ⟨ec, List.mem_filter.mpr ⟨hec, h1⟩, rfl⟩
  rw [List.contains_eq_any_beq] at h2
  have : ((s.epgChannels.filter (fun e => e.epg_id == epg_id)).map (·.id)).any
      (fun x => ec.id == x) = true :=
    List.any_eq_true.mpr ⟨ec.id, hidmem, by simp⟩
  rw [this] at h2
  exact absurd h2 (by decide)

lemma mem_assignIds {epg_id : Nat} : ∀ {startId : Nat} {l : List Xml} {ec : EpgChannelRow},
    ec ∈ assignIds epg_id startId l →
    ec.epg_id = epg_id ∧ startId ≤ ec.id ∧ ec.id < startId + l.length := by
  intro startId l
  induction l generalizing startId with
  | nil => intro ec h; cases h
  | cons c cs ih =>
    intro ec h
    rcases List.mem_cons.mp h with h | h
    · subst h
      refine ⟨rfl, Nat.le_refl _, ?_⟩
      show startId < startId + (cs.length + 1)
      omega
    · rcases ih h with ⟨h1, h2, h3⟩
      refine ⟨h1, by omega, ?_⟩
      simp only [List.length_cons]
      omega

lemma channelsFor_store (epg_id : Nat) (doc : Xml) (s : DBState) :
    channelsFor epg_id ((store_epg_channels epg_id doc s).1)
      = assignIds epg_id s.nextId (xmlChannels doc) := by
  unfold channelsFor store_epg_channels
  rw [List.filter_append, List.filter_filter]
  have h1 : s.epgChannels.filter
      (fun a => (a.epg_id == epg_id) && !(a.epg_id == epg_id)) = [] := by
    rw [List.filter_eq_nil]
    intro ec _
    cases h : ec.epg_id == epg_id <;> simp [h]
  have h2 : (assignIds epg_id s.nextId (xmlChannels doc)).filter
      (fun ec => ec.epg_id == epg_id)
      = assignIds epg_id s.nextId (xmlChannels doc) := by
    rw [List.filter_eq_self]
    intro a ha
    rw [(mem_assignIds ha).1]
    exact beq_self_eq_true epg_id
  rw [h1, h2, List.nil_append]

/-- Counterexample to C1: ingestion is not one atomic unit.  A source with a
previously stored guide-channel row suffers a parse failure (the `ET` parse
inside `store_epg_channels` raises) after `clear_epg_channel_data`'s separate
transaction already committed: the stored rows do not remain as they were —
the source's guide-channel row is gone. -/
theorem c1_counterexample :
    channelsFor 7 (⟨[⟨1, 7, some "ch1", some "BBC One", ""⟩], [], 2⟩ : DBState)
        = [⟨1, 7, some "ch1", some "BBC One", ""⟩]
  ∧ import_epg_data 7 (Xml.elem "tv" [] none []) (some .parse)
        ⟨[⟨1, 7, some "ch1", some "BBC One", ""⟩], [], 2⟩
      ≠ (⟨[⟨1, 7, some "ch1", some "BBC One", ""⟩], [], 2⟩ : DBState) := by
  constructor
  · decide
  · decide

/-- C1 amended: only a failure of the fetch step leaves the previously stored
rows exactly as they were.  The storage steps commit in separate
transactions, so a parse failure (or a failure inside the channel
transaction) leaves the source's prior guide-channel rows deleted
(`clear_epg_channel_data` already committed), and a failure during programme
storage leaves the new guide-channel rows committed with no programme rows
stored — a partial replacement is visible in those cases. -/
theorem c1_amended (epg_id : Nat) (doc : Xml) (s : DBState) :
    import_epg_data epg_id doc (some .fetch) s = s
  ∧ import_epg_data epg_id doc (some .parse) s = clear_epg_channel_data epg_id s
  ∧ import_epg_data epg_id doc (some .channelsTxn) s = clear_epg_channel_data epg_id s
  ∧ channelsFor epg_id (clear_epg_channel_data epg_id s) = []
  ∧ (import_epg_data epg_id doc (some .programmesTxn) s).programmes
      = (clear_epg_channel_data epg_id s).programmes
  ∧ channelsFor epg_id (import_epg_data epg_id doc (some .programmesTxn) s)
      = assignIds epg_id (clear_epg_channel_data epg_id s).nextId (xmlChannels doc) := by
  refine ⟨rfl, rfl, rfl, channelsFor_clear epg_id s, rfl, ?_⟩
  exact channelsFor_store epg_id doc (clear_epg_channel_data epg_id s)

/-- Counterexample to C4: `import_epg_data_for_all_epgs` has no per-source
exception handling, so a fetch error on the first source of a batch aborts
the whole loop — the second source is left un-ingested (no guide-channel
rows), although ingesting it alone would have stored its channel. -/
theorem c4_counterexample :
    channelsFor 2 (import_epg_data_for_all_epgs
        [⟨1, Xml.elem "tv" [] none [], some .fetch⟩,
         ⟨2, Xml.elem "tv" [] none
            [Xml.elem "channel" [("id", "ch1")] none
              [Xml.elem "display-name" [] (some "BBC One") []]], none⟩]
        ⟨[], [], 1⟩) = []
  ∧ channelsFor 2 (import_epg_data 2
        (Xml.elem "tv" [] none
          [Xml.elem "channel" [("id", "ch1")] none
            [Xml.elem "display-name" [] (some "BBC One") []]]) none
        ⟨[], [], 1⟩)
      = [⟨1, 2, some "ch1", some "BBC One", ""⟩] := by
  constructor
  · decide
  · decide

/-- C4 amended: a fetch or parse error while ingesting one source aborts that
source's ingestion and the remainder of the batch run — sources earlier in
the batch keep their completed ingestions, sources after the failing one are
never ingested, and the database ends in the failing source's partial-import
state. -/
theorem c4_amended (pre : List SourceRun) (r : SourceRun) (post : List SourceRun)
    (f : FailPoint) (hf : r.fail = some f) (hpre : ∀ x ∈ pre, x.fail = none)
    (s : DBState) :
    import_epg_data_for_all_epgs (pre ++ r :: post) s
      = import_epg_data r.epg_id r.doc (some f)
          (import_epg_data_for_all_epgs pre s) := by
  induction pre generalizing s with
  | nil =>
    simp [import_epg_data_for_all_epgs, hf]
  | cons x xs ih =>
    have hx : x.fail = none := hpre x (List.mem_cons_self x xs)
    simp only [List.cons_append, import_epg_data_for_all_epgs, hx]
    exact ih (fun y hy => hpre y (List.mem_cons_of_mem x hy))
      (import_epg_data x.epg_id x.doc none s)

/-- Witness instantiating the amended C4: a three-source batch whose middle
source fails at fetch; the first source's data persists and the third is
never reached. -/
theorem c4_amended_witness :
    ((⟨2, Xml.elem "tv" [] none [], some .fetch⟩ : SourceRun).fail = some .fetch
      ∧ (∀ x ∈ [(⟨1, Xml.elem "tv" [] none
            [Xml.elem "channel" [("id", "ch1")] none
              [Xml.elem "display-name" [] (some "BBC One") []]], none⟩ : SourceRun)],
          x.fail = none))
  ∧ import_epg_data_for_all_epgs
        ([(⟨1, Xml.elem "tv" [] none
            [Xml.elem "channel" [("id", "ch1")] none
              [Xml.elem "display-name" [] (some "BBC One") []]], none⟩ : SourceRun)]
          ++ (⟨2, Xml.elem "tv" [] none [], some .fetch⟩ : SourceRun)
            :: [(⟨3, Xml.elem "tv" [] none [], none⟩ : SourceRun)]) ⟨[], [], 1⟩
      = import_epg_data 2 (Xml.elem "tv" [] none []) (some .fetch)
          (import_epg_data_for_all_epgs
            [(⟨1, Xml.elem "tv" [] none
              [Xml.elem "channel" [("id", "ch1")] none
                [Xml.elem "display-name" [] (some "BBC One") []]], none⟩ : SourceRun)]
            ⟨[], [], 1⟩) :=
  ⟨⟨rfl, by intro x hx; rw [List.mem_singleton] at hx; subst hx; rfl⟩,
    c4_amended
      [⟨1, Xml.elem "tv" [] none
        [Xml.elem "channel" [("id", "ch1")] none
          [Xml.elem "display-name" [] (some "BBC One") []]], none⟩]
      ⟨2, Xml.elem "tv" [] none [], some .fetch⟩
      [⟨3, Xml.elem "tv" [] none [], none⟩]
      .fetch rfl
      (by intro x hx; rw [List.mem_singleton] at hx; subst hx; rfl)
      ⟨[], [], 1⟩⟩

/-- Counterexample to C7: a programme that already has a description (one of
the three fields) is NOT left unchanged by the enrichment stage — the
Google-image fallback fills its missing icon anyway, because that stage is
guarded only by `if not programme.icon_url`. -/
theorem c7_counterexample :
    update_programme_with_online_data ⟨false, true⟩ none (some "http://img")
        { emptyProgrammeRow with title := some "News", desc := some "A description" }
      ≠ { emptyProgrammeRow with title := some "News", desc := some "A description" } := by
  decide

/-- C7 amended: only the TMDB metadata stage requires the programme to lack
all of subtitle, description and icon.  A programme that already has at least
one of the three is skipped by that stage, but the image-search fallback may
still fill a missing icon: such a programme can change only in its
`icon_url`, and a programme that already has an icon is left entirely
unchanged. -/
theorem c7_amended (st : EnrichSettings) (tmdb : Option TmdbResult)
    (goog : Option String) (p : ProgrammeRow)
    (h : (truthy p.sub_title || truthy p.desc || truthy p.icon_url) = true) :
    update_programme_with_online_data st tmdb goog p
      = { p with icon_url := (update_programme_with_online_data st tmdb goog p).icon_url }
  ∧ (truthy p.icon_url = true → update_programme_with_online_data st tmdb goog p = p) := by
  unfold update_programme_with_online_data
  simp only [h, Bool.not_true, Bool.false_eq_true, if_false]
  constructor
  · cases h1 : truthy p.icon_url <;>
      cases h2 : st.enable_google_image_search_metadata <;>
      cases h3 : truthy goog <;>
      simp [h1, h2, h3]
  · intro h1
    simp [h1]

/-- Witness instantiating the amended C7: a programme with a description and
an icon already present, with both providers enabled and responding. -/
theorem c7_amended_witness :
    (truthy ({ emptyProgrammeRow with
                desc := some "A description",
                icon_url := some "http://i" } : ProgrammeRow).sub_title
      || truthy ({ emptyProgrammeRow with
                    desc := some "A description",
                    icon_url := some "http://i" } : ProgrammeRow).desc
      || truthy ({ emptyProgrammeRow with
                    desc := some "A description",
                    icon_url := some "http://i" } : ProgrammeRow).icon_url) = true
  ∧ (update_programme_with_online_data ⟨true, true⟩
        (some ⟨some "T", some "O", some "/p.jpg"⟩) (some "http://g")
        { emptyProgrammeRow with desc := some "A description", icon_url := some "http://i" }
      = { emptyProgrammeRow with desc := some "A description", icon_url := some "http://i" }) := by
  refine ⟨by decide, ?_⟩
  exact (c7_amended ⟨true, true⟩ (some ⟨some "T", some "O", some "/p.jpg"⟩)
    (some "http://g")
    { emptyProgrammeRow with desc := some "A description", icon_url := some "http://i" }
    (by decide)).2 (by decide)

/-- Counterexample to C8: two same-title lookups of one batch, interleaved as
the event loop permits (both cache checks happen before either cache write,
because the lock is released while the request is in flight), issue TWO
external calls for that title, not exactly one — though both tasks still
complete with the same value. -/
theorem c8_counterexample :
    (runSchedule (fun _ => some ⟨some "T", some "O", none⟩) [0, 1, 0, 1, 0, 1]
        (twoLookups "News")).calls = 2
  ∧ (runSchedule (fun _ => some ⟨some "T", some "O", none⟩) [0, 1, 0, 1, 0, 1]
        (twoLookups "News")).tasks.map (·.result)
      = [some (some ⟨some "T", some "O", none⟩), some (some ⟨some "T", some "O", none⟩)] := by
  constructor
  · decide
  · decide

/-- C8 amended: successful and no-result lookups are both cached by title,
and when the two same-title lookups do not interleave (the second task's
cache check runs after the first task's cache write), exactly one external
call is issued and both programmes receive the same resulting value — also
in the no-result case, which is cached as a stored `none`.  Interleaved
executions may instead issue one call per programme, since the lock is not
held across the external request. -/
theorem c8_amended (title : String) (oracle : String → Option TmdbResult) :
    (runSchedule oracle [0, 0, 0, 1] (twoLookups title)).calls = 1
  ∧ (runSchedule oracle [0, 0, 0, 1] (twoLookups title)).tasks.map (·.result)
      = [some (oracle title), some (oracle title)]
  ∧ (runSchedule oracle [0, 0, 0, 1] (twoLookups title)).cache = [(title, oracle title)] := by
  simp [runSchedule, stepTask, twoLookups, cacheLookup, cacheInsert, List.find?]

lemma clear_members_not_epg (epg_id : Nat) (s : DBState) :
    ∀ ec ∈ (clear_epg_channel_data epg_id s).epgChannels, (ec.epg_id == epg_id) = false := by
  have h := channelsFor_clear epg_id s
  unfold channelsFor at h
  intro ec hec
  have := List.filter_eq_nil.mp h ec hec
  cases hb : ec.epg_id == epg_id
  · rfl
  · exact absurd hb this

lemma find?_store_channels (epg_id : Nat) (doc : Xml) (s1 : DBState)
    (hclean : ∀ ec ∈ s1.epgChannels, (ec.epg_id == epg_id) = false)
    (cid : Option String) :
    (store_epg_channels epg_id doc s1).1.epgChannels.find?
        (fun ec => ec.channel_id == cid && ec.epg_id == epg_id)
      = (assignIds epg_id s1.nextId (xmlChannels doc)).find?
        (fun ec => ec.channel_id == cid && ec.epg_id == epg_id) := by
  unfold store_epg_channels
  rw [List.find?_append]
  have hpre : (s1.epgChannels.filter (fun ec => !(ec.epg_id == epg_id))).find?
      (fun ec => ec.channel_id == cid && ec.epg_id == epg_id) = none := by
    rw [List.find?_eq_none]
    intro ec hec
    rw [hclean ec (List.mem_of_mem_filter hec)]
    simp
  rw [hpre, Option.none_or]

lemma channelIdsMap_eq_pure (epg_id : Nat) (doc : Xml) (s1 : DBState)
    (hclean : ∀ ec ∈ s1.epgChannels, (ec.epg_id == epg_id) = false)
    (cid : Option String) :
    channelIdsMap epg_id (store_epg_channels epg_id doc s1).2
        (store_epg_channels epg_id doc s1).1 cid
      = channelIdsMapPure epg_id doc s1.nextId cid := by
  unfold channelIdsMap channelIdsMapPure
  have hcids : (store_epg_channels epg_id doc s1).2
      = (xmlChannels doc).map (fun c => attrGet c "id") := rfl
  rw [hcids]
  by_cases h : (((xmlChannels doc).map (fun c => attrGet c "id")).contains cid) = true
  · rw [if_pos h, if_pos h, find?_store_channels epg_id doc s1 hclean cid]
  · rw [if_neg h, if_neg h]

lemma programmes_import (epg_id : Nat) (doc : Xml) (s : DBState) :
    (import_epg_data epg_id doc none s).programmes
      = (clear_epg_channel_data epg_id s).programmes
        ++ ingestedProgrammes epg_id doc s.nextId := by
  have hnext : (clear_epg_channel_data epg_id s).nextId = s.nextId := rfl
  show (clear_epg_channel_data epg_id s).programmes
      ++ (xmlProgrammes doc).filterMap (fun programme =>
        match channelIdsMap epg_id
            (store_epg_channels epg_id doc (clear_epg_channel_data epg_id s)).2
            (store_epg_channels epg_id doc (clear_epg_channel_data epg_id s)).1
            (attrGet programme "channel") with
        | some epg_channel_id =>
            some (parseProgrammeRow epg_channel_id (attrGet programme "channel") programme)
        | none => none)
      = _
  congr 1
  unfold ingestedProgrammes
  apply List.filterMap_congr
  intro pr _
  rw [channelIdsMap_eq_pure epg_id doc (clear_epg_channel_data epg_id s)
      (clear_members_not_epg epg_id s) (attrGet pr "channel"), hnext]

lemma channelsFor_import (epg_id : Nat) (doc : Xml) (s : DBState) :
    channelsFor epg_id (import_epg_data epg_id doc none s)
      = ingestedChannels epg_id doc s.nextId := by
  have h1 : channelsFor epg_id (import_epg_data epg_id doc none s)
      = channelsFor epg_id (store_epg_channels epg_id doc
          (clear_epg_channel_data epg_id s)).1 := rfl
  rw [h1, channelsFor_store]
  rfl

lemma mem_ingestedProgrammes {epg_id : Nat} {doc : Xml} {startId : Nat}
    {p : ProgrammeRow} (hp : p ∈ ingestedProgrammes epg_id doc startId) :
    ∃ ec ∈ ingestedChannels epg_id doc startId,
      ec.id = p.epg_channel_id
      ∧ ec.channel_id = p.channel_id
      ∧ p.channel_id ∈ (xmlChannels doc).map (fun c => attrGet c "id") := by
  unfold ingestedProgrammes at hp
  rcases List.mem_filterMap.mp hp with ⟨pr, _, hpr⟩
  rcases hmap : channelIdsMapPure epg_id doc startId (attrGet pr "channel") with _ | ecid
  · rw [hmap] at hpr; cases hpr
  · rw [hmap] at hpr
    have hp' : p = parseProgrammeRow ecid (attrGet pr "channel") pr := by
      cases hpr; rfl
    unfold channelIdsMapPure at hmap
    by_cases hc : (((xmlChannels doc).map (fun c => attrGet c "id")).contains
        (attrGet pr "channel")) = true
    · rw [if_pos hc] at hmap
      rcases hfind : (assignIds epg_id startId (xmlChannels doc)).find?
          (fun ec => ec.channel_id == attrGet pr "channel" && ec.epg_id == epg_id)
        with _ | ec
      · rw [hfind] at hmap; cases hmap
      · rw [hfind] at hmap
        have hid : ec.id = ecid := by cases hmap; rfl
        have hmem : ec ∈ assignIds epg_id startId (xmlChannels doc) :=
          List.mem_of_find?_eq_some hfind
        have hpred := List.find?_some hfind
        have hchid : ec.channel_id = attrGet pr "channel" :=
          eq_of_beq (Bool.and_elim_left hpred)
        have hpch : p.channel_id = attrGet pr "channel" := by rw [hp']; rfl
        have hpec : p.epg_channel_id = ecid := by rw [hp']; rfl
        refine ⟨ec, hmem, ?_, ?_, ?_⟩
        · rw [hid, hpec]
        · rw [hchid, hpch]
        · rw [hpch]
          exact List.elem_iff.mp hc
    · rw [if_neg hc] at hmap; cases hmap

lemma pairwise_assignIds (epg_id : Nat) : ∀ (n : Nat) (l : List Xml),
    List.Pairwise (fun a b => a.id ≠ b.id) (assignIds epg_id n l) := by
  intro n l
  induction l generalizing n with
  | nil => exact List.Pairwise.nil
  | cons c cs ih =>
    refine List.Pairwise.cons ?_ (ih (n + 1))
    intro b hb
    have hble := (mem_assignIds hb).2.1
    have hidc : (parseChannelRow epg_id n c).id = n := rfl
    omega

lemma WF_clear (epg_id : Nat) (s : DBState) (hwf : WF s) :
    WF (clear_epg_channel_data epg_id s) := by
  obtain ⟨h1, h2, h3⟩ := hwf
  simp only [clear_epg_channel_data]
  refine ⟨?_, ?_, ?_⟩
  · intro ec hec
    exact h1 ec (List.mem_of_mem_filter hec)
  · exact List.Pairwise.filter _ h2
  · intro p hp
    have hpmem := List.mem_of_mem_filter hp
    have hkeep := (List.mem_filter.mp hp).2
    rcases h3 p hpmem with ⟨ec, hec, hid⟩
    refine ⟨ec, List.mem_filter.mpr ⟨hec, ?_⟩, hid⟩
    rw [hid]
    exact hkeep

lemma WF_import (epg_id : Nat) (doc : Xml) (s : DBState) (hwf : WF s) :
    WF (import_epg_data epg_id doc none s) := by
  have hwf1 := WF_clear epg_id s hwf
  obtain ⟨h1, h2, h3⟩ := hwf1
  have hclean := clear_members_not_epg epg_id s
  have hchans : (import_epg_data epg_id doc none s).epgChannels
      = ((clear_epg_channel_data epg_id s).epgChannels.filter
          (fun ec => !(ec.epg_id == epg_id)))
        ++ assignIds epg_id s.nextId (xmlChannels doc) := rfl
  have hnext : (import_epg_data epg_id doc none s).nextId
      = s.nextId + (xmlChannels doc).length := rfl
  have hclnext : (clear_epg_channel_data epg_id s).nextId = s.nextId := rfl
  refine ⟨?_, ?_, ?_⟩
  · intro ec hec
    rw [hchans] at hec
    rw [hnext]
    rcases List.mem_append.mp hec with h | h
    · have := h1 ec (List.mem_of_mem_filter h)
      rw [hclnext] at this
      omega
    · exact (mem_assignIds h).2.2
  · rw [hchans]
    rw [List.pairwise_append]
    refine ⟨List.Pairwise.filter _ h2, pairwise_assignIds epg_id s.nextId (xmlChannels doc), ?_⟩
    intro a ha b hb
    have hae := h1 a (List.mem_of_mem_filter ha)
    rw [hclnext] at hae
    have hbe := (mem_assignIds hb).2.1
    omega
  · intro p hp
    rw [show (import_epg_data epg_id doc none s).programmes
        = (clear_epg_channel_data epg_id s).programmes
          ++ ingestedProgrammes epg_id doc s.nextId from programmes_import epg_id doc s] at hp
    rw [hchans]
    rcases List.mem_append.mp hp with h | h
    · rcases h3 p h with ⟨ec, hec, hid⟩
      refine ⟨ec, List.mem_append.mpr (Or.inl (List.mem_filter.mpr ⟨hec, ?_⟩)), hid⟩
      rw [hclean ec hec]
      rfl
    · rcases mem_ingestedProgrammes h with ⟨ec, hec, hid, _, _⟩
      exact ⟨ec, List.mem_append.mpr (Or.inr hec), hid⟩

lemma programmesFor_import (epg_id : Nat) (doc : Xml) (s : DBState) (hwf : WF s) :
    programmesFor epg_id (import_epg_data epg_id doc none s)
      = ingestedProgrammes epg_id doc s.nextId := by
  unfold programmesFor
  rw [channelsFor_import, programmes_import, List.filter_append]
  have hold : (clear_epg_channel_data epg_id s).programmes.filter (fun p =>
      ((ingestedChannels epg_id doc s.nextId).map (·.id)).contains p.epg_channel_id) = [] := by
    rw [List.filter_eq_nil]
    intro p hp hcon
    simp only [clear_epg_channel_data] at hp
    have hpmem : p ∈ s.programmes := List.mem_of_mem_filter hp
    rcases hwf.2.2 p hpmem with ⟨ec, hec, hid⟩
    have hlt : p.epg_channel_id < s.nextId := by
      have := hwf.1 ec hec
      omega
    have hpin : p.epg_channel_id ∈ (ingestedChannels epg_id doc s.nextId).map (·.id) :=
      List.elem_iff.mp hcon
    rcases List.mem_map.mp hpin with ⟨ec2, hec2, hid2⟩
    have hge := (mem_assignIds hec2).2.1
    omega
  have hnew : (ingestedProgrammes epg_id doc s.nextId).filter (fun p =>
      ((ingestedChannels epg_id doc s.nextId).map (·.id)).contains p.epg_channel_id)
      = ingestedProgrammes epg_id doc s.nextId := by
    rw [List.filter_eq_self]
    intro p hp
    rcases mem_ingestedProgrammes hp with ⟨ec, hecmem, hid, _, _⟩
    exact List.elem_iff.mpr (List.mem_map.mpr ⟨ec, hecmem, hid⟩)
  rw [hold, hnew, List.nil_append]

lemma epgSlice_import (epg_id : Nat) (doc : Xml) (s : DBState) (hwf : WF s) :
    epgSlice epg_id (import_epg_data epg_id doc none s)
      = (ingestedChannels epg_id doc s.nextId, ingestedProgrammes epg_id doc s.nextId) := by
  unfold epgSlice
  rw [channelsFor_import, programmesFor_import epg_id doc s hwf]

lemma find?_assignIds_isSome (epg_id : Nat) : ∀ (n : Nat) (chans : List Xml)
    (cid : Option String), cid ∈ chans.map (fun c => attrGet c "id") →
    ((assignIds epg_id n chans).find?
      (fun ec => ec.channel_id == cid && ec.epg_id == epg_id)).isSome = true := by
  intro n chans
  induction chans generalizing n with
  | nil => intro cid h; simp at h
  | cons c cs ih =>
    intro cid h
    show ((parseChannelRow epg_id n c :: assignIds epg_id (n + 1) cs).find?
      (fun ec => ec.channel_id == cid && ec.epg_id == epg_id)).isSome = true
    by_cases hpred : ((parseChannelRow epg_id n c).channel_id == cid
        && ((parseChannelRow epg_id n c).epg_id == epg_id)) = true
    · have hfc : (parseChannelRow epg_id n c :: assignIds epg_id (n + 1) cs).find?
          (fun ec => ec.channel_id == cid && ec.epg_id == epg_id)
          = some (parseChannelRow epg_id n c) :=
        List.find?_cons_of_pos _ hpred
      rw [hfc]
      rfl
    · have hfc : (parseChannelRow epg_id n c :: assignIds epg_id (n + 1) cs).find?
          (fun ec => ec.channel_id == cid && ec.epg_id == epg_id)
          = (assignIds epg_id (n + 1) cs).find?
            (fun ec => ec.channel_id == cid && ec.epg_id == epg_id) :=
        List.find?_cons_of_neg _ hpred
      rw [hfc]
      rw [List.map_cons, List.mem_cons] at h
      rcases h with h | h
      · exfalso
        apply hpred
        have h1 : (parseChannelRow epg_id n c).channel_id = attrGet c "id" := rfl
        have h2 : (parseChannelRow epg_id n c).epg_id = epg_id := rfl
        rw [h1, h2, ← h]
        simp
      · exact ih (n + 1) cid h

lemma isSome_channelIdsMapPure (epg_id : Nat) (doc : Xml) (startId : Nat)
    (cid : Option String) :
    (channelIdsMapPure epg_id doc startId cid).isSome
      = ((xmlChannels doc).map (fun c => attrGet c "id")).contains cid := by
  unfold channelIdsMapPure
  by_cases h : (((xmlChannels doc).map (fun c => attrGet c "id")).contains cid) = true
  · rw [if_pos h, h]
    have hs := find?_assignIds_isSome epg_id startId (xmlChannels doc) cid
      (List.elem_iff.mp h)
    rcases hf : (assignIds epg_id startId (xmlChannels doc)).find?
        (fun ec => ec.channel_id == cid && ec.epg_id == epg_id) with _ | ec
    · rw [hf] at hs; cases hs
    · rw [hf]; rfl
  · rw [if_neg h, Bool.eq_false_iff.mpr h]
    rfl

lemma length_filterMap_eq_length_filter {α β : Type} (f : α → Option β)
    (p : α → Bool) : ∀ l : List α, (∀ a ∈ l, (f a).isSome = p a) →
    (l.filterMap f).length = (l.filter p).length := by
  intro l
  induction l with
  | nil => intro _; rfl
  | cons a as ih =>
    intro h
    have ha := h a (List.mem_cons_self a as)
    have hrest := ih (fun x hx => h x (List.mem_cons_of_mem a hx))
    rw [List.filterMap_cons, List.filter_cons]
    rcases hfa : f a with _ | b
    · rw [hfa] at ha
      rw [← ha]
      simpa using hrest
    · rw [hfa] at ha
      rw [← ha]
      simpa using hrest

/-- C2: re-ingestion has replace semantics.  After ingesting `doc1` and then
`doc2` for the same source, the source's slice of the store — its
guide-channel rows and their programme rows — is exactly the rows built from
`doc2` alone (`ingestedChannels`/`ingestedProgrammes` are functions of the
second document and the autoincrement counter only): zero rows survive from
the first ingestion. -/
theorem c2_reingestion_replace (epg_id : Nat) (doc1 doc2 : Xml) (s : DBState)
    (hwf : WF s) :
    epgSlice epg_id (import_epg_data epg_id doc2 none (import_epg_data epg_id doc1 none s))
      = (ingestedChannels epg_id doc2 (import_epg_data epg_id doc1 none s).nextId,
         ingestedProgrammes epg_id doc2 (import_epg_data epg_id doc1 none s).nextId) :=
  epgSlice_import epg_id doc2 _ (WF_import epg_id doc1 s hwf)

/-- Witness instantiating C2: source 7 first ingests a document declaring
`ch1` with one programme, then a document declaring `ch2`; the final slice
is exactly the second document's rows. -/
theorem c2_reingestion_replace_witness :
    WF ⟨[], [], 0⟩
  ∧ epgSlice 7 (import_epg_data 7
        (Xml.elem "tv" [] none
          [Xml.elem "channel" [("id", "ch2")] none
            [Xml.elem "display-name" [] (some "Two") []],
           Xml.elem "programme" [("channel", "ch2"), ("start", "20240102120000 +0000")] none
            [Xml.elem "title" [] (some "Late") []]]) none
        (import_epg_data 7
          (Xml.elem "tv" [] none
            [Xml.elem "channel" [("id", "ch1")] none
              [Xml.elem "display-name" [] (some "One") []],
             Xml.elem "programme" [("channel", "ch1"), ("start", "20240101120000 +0000")] none
              [Xml.elem "title" [] (some "News") []]]) none ⟨[], [], 0⟩))
      = (ingestedChannels 7
          (Xml.elem "tv" [] none
            [Xml.elem "channel" [("id", "ch2")] none
              [Xml.elem "display-name" [] (some "Two") []],
             Xml.elem "programme" [("channel", "ch2"), ("start", "20240102120000 +0000")] none
              [Xml.elem "title" [] (some "Late") []]])
          (import_epg_data 7
            (Xml.elem "tv" [] none
              [Xml.elem "channel" [("id", "ch1")] none
                [Xml.elem "display-name" [] (some "One") []],
               Xml.elem "programme" [("channel", "ch1"), ("start", "20240101120000 +0000")] none
                [Xml.elem "title" [] (some "News") []]]) none ⟨[], [], 0⟩).nextId,
         ingestedProgrammes 7
          (Xml.elem "tv" [] none
            [Xml.elem "channel" [("id", "ch2")] none
              [Xml.elem "display-name" [] (some "Two") []],
             Xml.elem "programme" [("channel", "ch2"), ("start", "20240102120000 +0000")] none
              [Xml.elem "title" [] (some "Late") []]])
          (import_epg_data 7
            (Xml.elem "tv" [] none
              [Xml.elem "channel" [("id", "ch1")] none
                [Xml.elem "display-name" [] (some "One") []],
               Xml.elem "programme" [("channel", "ch1"), ("start", "20240101120000 +0000")] none
                [Xml.elem "title" [] (some "News") []]]) none ⟨[], [], 0⟩).nextId) :=
  ⟨⟨by simp, List.Pairwise.nil, by simp⟩,
    c2_reingestion_replace 7
      (Xml.elem "tv" [] none
        [Xml.elem "channel" [("id", "ch1")] none
          [Xml.elem "display-name" [] (some "One") []],
         Xml.elem "programme" [("channel", "ch1"), ("start", "20240101120000 +0000")] none
          [Xml.elem "title" [] (some "News") []]])
      (Xml.elem "tv" [] none
        [Xml.elem "channel" [("id", "ch2")] none
          [Xml.elem "display-name" [] (some "Two") []],
         Xml.elem "programme" [("channel", "ch2"), ("start", "20240102120000 +0000")] none
          [Xml.elem "title" [] (some "Late") []]])
      ⟨[], [], 0⟩ ⟨by simp, List.Pairwise.nil, by simp⟩⟩

/-- C3: orphan programmes are discarded, not stored.  After a successful
ingestion, every programme row of the source references (by foreign key and
by upstream id) a guide-channel row declared in the same batch, and the
number of stored programme rows equals the number of programme elements
whose `channel` attribute is among the batch's declared channel ids —
orphans are skipped while every valid programme is stored. -/
theorem c3_orphans_discarded (epg_id : Nat) (doc : Xml) (s : DBState) (hwf : WF s) :
    (∀ p ∈ programmesFor epg_id (import_epg_data epg_id doc none s),
        ∃ ec ∈ channelsFor epg_id (import_epg_data epg_id doc none s),
          ec.id = p.epg_channel_id ∧ ec.channel_id = p.channel_id
          ∧ p.channel_id ∈ (xmlChannels doc).map (fun c => attrGet c "id"))
  ∧ (programmesFor epg_id (import_epg_data epg_id doc none s)).length
      = ((xmlProgrammes doc).filter (fun pr =>
          ((xmlChannels doc).map (fun c => attrGet c "id")).contains
            (attrGet pr "channel"))).length := by
  constructor
  · intro p hp
    rw [programmesFor_import epg_id doc s hwf] at hp
    rw [channelsFor_import]
    exact mem_ingestedProgrammes hp
  · rw [programmesFor_import epg_id doc s hwf]
    unfold ingestedProgrammes
    apply length_filterMap_eq_length_filter
    intro pr _
    rcases hm : channelIdsMapPure epg_id doc s.nextId (attrGet pr "channel") with _ | ecid
    · have := isSome_channelIdsMapPure epg_id doc s.nextId (attrGet pr "channel")
      rw [hm] at this
      rw [← this]
      rfl
    · have := isSome_channelIdsMapPure epg_id doc s.nextId (attrGet pr "channel")
      rw [hm] at this
      rw [← this]
      rfl

/-- Witness instantiating C3: a document declaring `ch1` with one valid
programme and one orphan programme on an undeclared `chX`. -/
theorem c3_orphans_discarded_witness :
    WF ⟨[], [], 0⟩
  ∧ ((∀ p ∈ programmesFor 7 (import_epg_data 7
        (Xml.elem "tv" [] none
          [Xml.elem "channel" [("id", "ch1")] none
            [Xml.elem "display-name" [] (some "One") []],
           Xml.elem "programme" [("channel", "ch1")] none
            [Xml.elem "title" [] (some "News") []],
           Xml.elem "programme" [("channel", "chX")] none
            [Xml.elem "title" [] (some "Ghost") []]]) none ⟨[], [], 0⟩),
        ∃ ec ∈ channelsFor 7 (import_epg_data 7
          (Xml.elem "tv" [] none
            [Xml.elem "channel" [("id", "ch1")] none
              [Xml.elem "display-name" [] (some "One") []],
             Xml.elem "programme" [("channel", "ch1")] none
              [Xml.elem "title" [] (some "News") []],
             Xml.elem "programme" [("channel", "chX")] none
              [Xml.elem "title" [] (some "Ghost") []]]) none ⟨[], [], 0⟩),
          ec.id = p.epg_channel_id ∧ ec.channel_id = p.channel_id
          ∧ p.channel_id ∈ (xmlChannels (Xml.elem "tv" [] none
              [Xml.elem "channel" [("id", "ch1")] none
                [Xml.elem "display-name" [] (some "One") []],
               Xml.elem "programme" [("channel", "ch1")] none
                [Xml.elem "title" [] (some "News") []],
               Xml.elem "programme" [("channel", "chX")] none
                [Xml.elem "title" [] (some "Ghost") []]])).map (fun c => attrGet c "id"))
      ∧ (programmesFor 7 (import_epg_data 7
          (Xml.elem "tv" [] none
            [Xml.elem "channel" [("id", "ch1")] none
              [Xml.elem "display-name" [] (some "One") []],
             Xml.elem "programme" [("channel", "ch1")] none
              [Xml.elem "title" [] (some "News") []],
             Xml.elem "programme" [("channel", "chX")] none
              [Xml.elem "title" [] (some "Ghost") []]]) none ⟨[], [], 0⟩)).length
        = ((xmlProgrammes (Xml.elem "tv" [] none
            [Xml.elem "channel" [("id", "ch1")] none
              [Xml.elem "display-name" [] (some "One") []],
             Xml.elem "programme" [("channel", "ch1")] none
              [Xml.elem "title" [] (some "News") []],
             Xml.elem "programme" [("channel", "chX")] none
              [Xml.elem "title" [] (some "Ghost") []]])).filter (fun pr =>
            ((xmlChannels (Xml.elem "tv" [] none
              [Xml.elem "channel" [("id", "ch1")] none
                [Xml.elem "display-name" [] (some "One") []],
               Xml.elem "programme" [("channel", "ch1")] none
                [Xml.elem "title" [] (some "News") []],
               Xml.elem "programme" [("channel", "chX")] none
                [Xml.elem "title" [] (some "Ghost") []]])).map (fun c => attrGet c "id")).contains
              (attrGet pr "channel"))).length) :=
  ⟨⟨by simp, List.Pairwise.nil, by simp⟩,
    c3_orphans_discarded 7
      (Xml.elem "tv" [] none
        [Xml.elem "channel" [("id", "ch1")] none
          [Xml.elem "display-name" [] (some "One") []],
         Xml.elem "programme" [("channel", "ch1")] none
          [Xml.elem "title" [] (some "News") []],
         Xml.elem "programme" [("channel", "chX")] none
          [Xml.elem "title" [] (some "Ghost") []]])
      ⟨[], [], 0⟩ ⟨by simp, List.Pairwise.nil, by simp⟩⟩

lemma any_tag_isNotNoneElem (T t : String) (v : Option String) (h : (t == T) = false) :
    (isNotNoneElem t v).any (fun x => x.tag == T) = false := by
  cases v <;> simp [isNotNoneElem, textElem, Xml.tag, h]

lemma any_tag_truthyElem (T t : String) (v : Option String) (h : (t == T) = false) :
    (truthyElem t v).any (fun x => x.tag == T) = false := by
  cases v with
  | none => rfl
  | some s =>
    by_cases hs : (s == "") = true <;> simp [truthyElem, textElem, Xml.tag, h, hs]

lemma any_tag_lengthElems (T : String) (v : Option String)
    (h : ("length" == T) = false) :
    (lengthElems v).any (fun x => x.tag == T) = false := by
  cases v with
  | none => rfl
  | some l =>
    by_cases hl : (l == "") = true
    · simp [lengthElems, hl]
    · rcases hsp : splitFirstSpace l with ⟨bef, rest⟩
      cases rest <;> simp [lengthElems, hl, hsp, Xml.tag, h]

lemma any_tag_creditsElems (T : String) (cr : List (String × List String))
    (h : ("credits" == T) = false) :
    (creditsElems cr).any (fun x => x.tag == T) = false := by
  by_cases hc : cr.isEmpty = true <;> simp [creditsElems, hc, Xml.tag, h]

lemma any_tag_episodeElems (T : String) (p : ProgrammeRow)
    (h : ("episode-num" == T) = false) :
    (episodeElems p).any (fun x => x.tag == T) = false := by
  by_cases hc : (truthy p.episode_num_system && truthy p.episode_num_value) = true <;>
    simp [episodeElems, hc, Xml.tag, h]

lemma any_tag_ratingElems (T : String) (p : ProgrammeRow)
    (h : ("rating" == T) = false) :
    (ratingElems p).any (fun x => x.tag == T) = false := by
  by_cases hc : (truthy p.rating_system && truthy p.rating_value) = true <;>
    simp [ratingElems, hc, Xml.tag, h]

lemma any_tag_starRatingElems (T : String) (p : ProgrammeRow)
    (h : ("star-rating" == T) = false) :
    (starRatingElems p).any (fun x => x.tag == T) = false := by
  rcases hv : p.star_rating with _ | s
  · simp [starRatingElems, hv]
  · by_cases hs : (s == "") = true <;> simp [starRatingElems, hv, hs, Xml.tag, h]

lemma any_tag_infoElem (T t : String) (pairs : List (String × String))
    (h : (t == T) = false) :
    (infoElem t pairs).any (fun x => x.tag == T) = false := by
  by_cases hc : pairs.isEmpty = true <;> simp [infoElem, hc, Xml.tag, h]

lemma any_tag_truthyAttrElem (T t key : String) (v : Option String)
    (h : (t == T) = false) :
    (truthyAttrElem t key v).any (fun x => x.tag == T) = false := by
  rcases v with _ | s
  · rfl
  · by_cases hs : (s == "") = true <;> simp [truthyAttrElem, hs, Xml.tag, h]

lemma any_tag_flagElem (T t : String) (b : Bool) (h : (t == T) = false) :
    (flagElem t b).any (fun x => x.tag == T) = false := by
  cases b <;> simp [flagElem, Xml.tag, h]

lemma any_tag_reviewElems (T : String) (p : ProgrammeRow)
    (h : ("review" == T) = false) :
    (reviewElems p).any (fun x => x.tag == T) = false := by
  rcases hv : p.review_value with _ | s
  · simp [reviewElems, hv]
  · by_cases hs : (s == "") = true <;> simp [reviewElems, hv, hs, Xml.tag, h]

lemma any_tag_progIconElems (T : String) (p : ProgrammeRow)
    (h : ("icon" == T) = false) :
    (progIconElems p).any (fun x => x.tag == T) = false := by
  rcases hv : p.icon_url with _ | s
  · simp [progIconElems, hv]
  · by_cases hs : (s == "") = true <;> simp [progIconElems, hv, hs, Xml.tag, h]

lemma any_tag_mapTextLang (T t : String) (l : List String) (h : (t == T) = false) :
    ((l.map (fun s => Xml.elem t [("lang", "en")] (some s) [])).any
      (fun x => x.tag == T)) = false := by
  rw [List.any_eq_false]
  intro x hx
  rcases List.mem_map.mp hx with ⟨s, _, rfl⟩
  simp [Xml.tag, h]

lemma any_episode_progChildren (tags : List String) (p : ProgrammeRow) :
    (progChildren tags p).any (fun x => x.tag == "episode-num")
      = (truthy p.episode_num_system && truthy p.episode_num_value) := by
  unfold progChildren
  simp only [List.any_append]
  rw [any_tag_isNotNoneElem _ _ _ (by decide), any_tag_isNotNoneElem _ _ _ (by decide),
      any_tag_isNotNoneElem _ _ _ (by decide), any_tag_isNotNoneElem _ _ _ (by decide),
      any_tag_isNotNoneElem _ _ _ (by decide), any_tag_truthyElem _ _ _ (by decide),
      any_tag_truthyElem _ _ _ (by decide), any_tag_lengthElems _ _ (by decide),
      any_tag_creditsElems _ _ (by decide), any_tag_ratingElems _ _ (by decide),
      any_tag_starRatingElems _ _ (by decide), any_tag_infoElem _ _ _ (by decide),
      any_tag_infoElem _ _ _ (by decide), any_tag_truthyAttrElem _ _ _ _ (by decide),
      any_tag_flagElem _ _ _ (by decide), any_tag_flagElem _ _ _ (by decide),
      any_tag_flagElem _ _ _ (by decide), any_tag_truthyAttrElem _ _ _ _ (by decide),
      any_tag_reviewElems _ _ (by decide), any_tag_progIconElems _ _ (by decide),
      any_tag_mapTextLang _ _ _ (by decide), any_tag_mapTextLang _ _ _ (by decide),
      any_tag_mapTextLang _ _ _ (by decide)]
  have hep : (episodeElems p).any (fun x => x.tag == "episode-num")
      = (truthy p.episode_num_system && truthy p.episode_num_value) := by
    by_cases hc : (truthy p.episode_num_system && truthy p.episode_num_value) = true <;>
      simp [episodeElems, hc, Xml.tag]
  rw [hep]
  simp

lemma any_rating_progChildren (tags : List String) (p : ProgrammeRow) :
    (progChildren tags p).any (fun x => x.tag == "rating")
      = (truthy p.rating_system && truthy p.rating_value) := by
  unfold progChildren
  simp only [List.any_append]
  rw [any_tag_isNotNoneElem _ _ _ (by decide), any_tag_isNotNoneElem _ _ _ (by decide),
      any_tag_isNotNoneElem _ _ _ (by decide), any_tag_isNotNoneElem _ _ _ (by decide),
      any_tag_isNotNoneElem _ _ _ (by decide), any_tag_truthyElem _ _ _ (by decide),
      any_tag_truthyElem _ _ _ (by decide), any_tag_lengthElems _ _ (by decide),
      any_tag_creditsElems _ _ (by decide), any_tag_episodeElems _ _ (by decide),
      any_tag_starRatingElems _ _ (by decide), any_tag_infoElem _ _ _ (by decide),
      any_tag_infoElem _ _ _ (by decide), any_tag_truthyAttrElem _ _ _ _ (by decide),
      any_tag_flagElem _ _ _ (by decide), any_tag_flagElem _ _ _ (by decide),
      any_tag_flagElem _ _ _ (by decide), any_tag_truthyAttrElem _ _ _ _ (by decide),
      any_tag_reviewElems _ _ (by decide), any_tag_progIconElems _ _ (by decide),
      any_tag_mapTextLang _ _ _ (by decide), any_tag_mapTextLang _ _ _ (by decide),
      any_tag_mapTextLang _ _ _ (by decide)]
  have hra : (ratingElems p).any (fun x => x.tag == "rating")
      = (truthy p.rating_system && truthy p.rating_value) := by
    by_cases hc : (truthy p.rating_system && truthy p.rating_value) = true <;>
      simp [ratingElems, hc, Xml.tag]
  rw [hra]
  simp

/-- C10: paired system/value elements require both halves to be emitted.
Ingestion stores an `episode-num` element's text even when its `system`
attribute is absent (the system column is stored NULL), while synthesis
emits an `episode-num` element — and likewise a `rating` element — exactly
when both the stored system and the stored value are present and non-empty;
consequently a programme whose `episode-num` element has text but no
`system` attribute is stored with a null system and omitted entirely from
the synthesized output. -/
theorem c10_paired_system_value (pe en : Xml) (epg_channel_id : Nat)
    (cid : Option String) (v : String)
    (hfind : xFind pe "episode-num" = some en)
    (hsys : attrGet en "system" = none)
    (htext : en.textOf = some v) :
    (parseProgrammeRow epg_channel_id cid pe).episode_num_system = none
  ∧ (parseProgrammeRow epg_channel_id cid pe).episode_num_value = some v
  ∧ (∀ tags p, (progChildren tags p).any (fun x => x.tag == "episode-num")
      = (truthy p.episode_num_system && truthy p.episode_num_value))
  ∧ (∀ tags p, (progChildren tags p).any (fun x => x.tag == "rating")
      = (truthy p.rating_system && truthy p.rating_value))
  ∧ (∀ tags, (progChildren tags (parseProgrammeRow epg_channel_id cid pe)).any
      (fun x => x.tag == "episode-num") = false) := by
  have h1 : (parseProgrammeRow epg_channel_id cid pe).episode_num_system = none := by
    show ((xFind pe "episode-num").bind (fun e => attrGet e "system")) = none
    rw [hfind]
    exact hsys
  have h2 : (parseProgrammeRow epg_channel_id cid pe).episode_num_value = some v := by
    show ((xFind pe "episode-num").bind Xml.textOf) = some v
    rw [hfind]
    exact htext
  refine ⟨h1, h2, any_episode_progChildren, any_rating_progChildren, ?_⟩
  intro tags
  rw [any_episode_progChildren, h1]
  rfl

/-- Witness instantiating C10: a programme element whose `episode-num` child
has text `"S01E02"` but no `system` attribute. -/
theorem c10_paired_system_value_witness :
    (xFind (Xml.elem "programme" [("channel", "ch1")] none
        [Xml.elem "episode-num" [] (some "S01E02") []]) "episode-num"
      = some (Xml.elem "episode-num" [] (some "S01E02") [])
    ∧ attrGet (Xml.elem "episode-num" [] (some "S01E02") []) "system" = none
    ∧ Xml.textOf (Xml.elem "episode-num" [] (some "S01E02") []) = some "S01E02")
  ∧ ((parseProgrammeRow 1 (some "ch1")
        (Xml.elem "programme" [("channel", "ch1")] none
          [Xml.elem "episode-num" [] (some "S01E02") []])).episode_num_system = none
    ∧ (parseProgrammeRow 1 (some "ch1")
        (Xml.elem "programme" [("channel", "ch1")] none
          [Xml.elem "episode-num" [] (some "S01E02") []])).episode_num_value = some "S01E02"
    ∧ (∀ tags p, (progChildren tags p).any (fun x => x.tag == "episode-num")
        = (truthy p.episode_num_system && truthy p.episode_num_value))
    ∧ (∀ tags p, (progChildren tags p).any (fun x => x.tag == "rating")
        = (truthy p.rating_system && truthy p.rating_value))
    ∧ (∀ tags, (progChildren tags (parseProgrammeRow 1 (some "ch1")
        (Xml.elem "programme" [("channel", "ch1")] none
          [Xml.elem "episode-num" [] (some "S01E02") []]))).any
        (fun x => x.tag == "episode-num") = false)) :=
  ⟨⟨rfl, rfl, rfl⟩,
    c10_paired_system_value
      (Xml.elem "programme" [("channel", "ch1")] none
        [Xml.elem "episode-num" [] (some "S01E02") []])
      (Xml.elem "episode-num" [] (some "S01E02") [])
      1 (some "ch1") "S01E02" rfl rfl rfl⟩

end TIC
